import Mathlib

/-!
Shallow embedding of the FLV demuxer core from `src/gst-plugin-flv/src/flvdemux.rs`
(gst-plugin-rs).  Byte streams are `List Nat` (each entry one byte), machine
integers are `Nat`/`Int` with explicit wrap-around where the Rust arithmetic can
overflow, and fallible operations (`unwrap`, `unimplemented!`, `unreachable!`)
return `Option` (`none` models a panic).  The lower-level field parsers from the
external `flavors` crate are pure functions on byte slices (per the spec they are
out of scope and specified only by interface); the demuxer functions are
parameterised over them through the `Flv.Parsers` record.
-/

namespace Flv

/-- Stream id constant for audio (source line 37). -/
def AUDIO_STREAM_ID : Nat := 0

/-- Stream id constant for video (source line 38). -/
def VIDEO_STREAM_ID : Nat := 1

/-- `flavors::SoundFormat`. -/
inductive SoundFormat where
  | PCM_NE | ADPCM | MP3 | PCM_LE
  | NELLYMOSER_16KHZ_MONO | NELLYMOSER_8KHZ_MONO | NELLYMOSER
  | PCM_ALAW | PCM_ULAW | AAC | SPEEX | MP3_8KHZ | DEVICE_SPECIFIC
deriving DecidableEq, Repr

/-- `flavors::SoundRate` (source names `_5_5KHZ`, `_11KHZ`, `_22KHZ`, `_44KHZ`). -/
inductive SoundRate where
  | Rate5_5KHZ | Rate11KHZ | Rate22KHZ | Rate44KHZ
deriving DecidableEq, Repr

/-- `flavors::SoundSize`. -/
inductive SoundSize where
  | Snd8bit | Snd16bit
deriving DecidableEq, Repr

/-- `flavors::SoundType`. -/
inductive SoundType where
  | SndMono | SndStereo
deriving DecidableEq, Repr

/-- `flavors::AudioDataHeader`. -/
structure AudioDataHeader where
  sound_format : SoundFormat
  sound_rate : SoundRate
  sound_size : SoundSize
  sound_type : SoundType
deriving DecidableEq, Repr

/-- `flavors::CodecId`. -/
inductive CodecId where
  | JPEG | SORENSON_H263 | SCREEN | VP6 | VP6A | SCREEN2 | H264 | H263 | MPEG4Part2
deriving DecidableEq, Repr

/-- `flavors::FrameType`. -/
inductive FrameType where
  | Key | Inter | DisposableInter | Generated | Command
deriving DecidableEq, Repr

/-- `flavors::VideoDataHeader`. -/
structure VideoDataHeader where
  frame_type : FrameType
  codec_id : CodecId
deriving DecidableEq, Repr

/-- `flavors::TagType`. -/
inductive TagType where
  | Script | Audio | Video
deriving DecidableEq, Repr

/-- `flavors::TagHeader`: `data_size` is a u24 field, `timestamp` a u24 plus an
8-bit extension byte, so a u32 value in milliseconds. -/
structure TagHeader where
  tag_type : TagType
  data_size : Nat
  timestamp : Nat
  stream_id : Nat
deriving DecidableEq, Repr

/-- `flavors::Header`: the 9-byte FLV file header (`offset` is the u32 data offset). -/
structure Header where
  version : Nat
  audio : Bool
  video : Bool
  offset : Nat
deriving DecidableEq, Repr

/-- `flavors::AACPacketType`. -/
inductive AACPacketType where
  | SequenceHeader | Raw
deriving DecidableEq, Repr

/-- `flavors::AACAudioPacketHeader`. -/
structure AACAudioPacketHeader where
  packet_type : AACPacketType
deriving DecidableEq, Repr

/-- `flavors::AVCPacketType`. -/
inductive AVCPacketType where
  | SequenceHeader | NALU | EndOfSequence
deriving DecidableEq, Repr

/-- `flavors::AVCVideoPacketHeader`: `composition_time` is a 24-bit signed value. -/
structure AVCVideoPacketHeader where
  packet_type : AVCPacketType
  composition_time : Int
deriving DecidableEq, Repr

/-- A gst buffer: payload bytes plus the pts/dts timestamps (nanoseconds) and the
delta-unit flag the demuxer sets on it. -/
structure Buffer where
  data : List Nat
  pts : Option Nat := none
  dts : Option Nat := none
  delta_unit : Bool := false
deriving DecidableEq, Repr

/-- `Metadata` (source lines 353-370): the recognized `onMetaData` fields. -/
structure Metadata where
  duration : Option Nat
  creation_date : Option String
  creator : Option String
  title : Option String
  metadata_creator : Option String
  audio_bitrate : Option Nat
  video_width : Option Nat
  video_height : Option Nat
  video_pixel_aspect_ratio : Option (Nat × Nat)
  video_framerate : Option (Nat × Nat)
  video_bitrate : Option Nat
deriving DecidableEq, Repr

/-- Modelled from the spec: the result of `flavors::script_data` (an external
AMF0 parser, not part of this repository's sources) combined with the
floating-point field conversions of `Metadata::new` (source lines 372-448,
IEEE-754 double arithmetic).  `name` is the record's name string and
`asMetadata` the `Metadata` record that `Metadata::new` extracts from its
arguments when the name is `"onMetaData"`. -/
structure ScriptData where
  name : String
  asMetadata : Metadata
deriving DecidableEq, Repr

/-- Caps field values (`gst_plugin::caps::Value`). -/
inductive CapsVal where
  | int (i : Int)
  | str (s : String)
  | bool (b : Bool)
  | fraction (n d : Int)
  | buffer (b : Buffer)
deriving DecidableEq, Repr

/-- A caps description: media-type name plus key/value fields. -/
structure Caps where
  name : String
  fields : List (String × CapsVal)
deriving DecidableEq, Repr

/-- `Caps::new_simple`. -/
def Caps.new_simple (name : String) (fields : List (String × CapsVal)) : Caps :=
  ⟨name, fields⟩

/-- `Caps::set_simple`: appends the given fields to the structure. -/
def Caps.set_simple (c : Caps) (fields : List (String × CapsVal)) : Caps :=
  ⟨c.name, c.fields ++ fields⟩

/-- A `Stream` descriptor: `{id, caps, kind}`. -/
structure Stream where
  id : Nat
  caps : Caps
  kind : String
deriving DecidableEq, Repr

/-- `HandleBufferResult` (from `gst_plugin::demuxer`), the events the core returns. -/
inductive HandleBufferResult where
  | NeedMoreData
  | Again
  | StreamAdded (s : Stream)
  | StreamChanged (s : Stream)
  | StreamsChanged (ss : List Stream)
  | HaveAllStreams
  | BufferForStream (id : Nat) (b : Buffer)
deriving DecidableEq, Repr

/-- `AudioFormat` (source lines 83-91). -/
structure AudioFormat where
  format : SoundFormat
  rate : Nat
  width : Nat
  channels : Nat
  bitrate : Option Nat
  aac_sequence_header : Option Buffer
deriving DecidableEq, Repr

/-- The custom `PartialEq for AudioFormat` (source lines 93-100): compares every
field except `bitrate`. -/
def AudioFormat.peq (a b : AudioFormat) : Bool :=
  decide (a.format = b.format) && decide (a.rate = b.rate) &&
  decide (a.width = b.width) && decide (a.channels = b.channels) &&
  decide (a.aac_sequence_header = b.aac_sequence_header)

/-- `Option<AudioFormat>` inequality against `Some`, using the custom `PartialEq`
(the source's `streaming_state.audio.as_ref() != Some(&new_audio_format)`). -/
def audioNe (o : Option AudioFormat) (f : AudioFormat) : Bool :=
  match o with
  | none => true
  | some a => !(a.peq f)

/-- `VideoFormat` (source lines 222-231). -/
structure VideoFormat where
  format : CodecId
  width : Option Nat
  height : Option Nat
  pixel_aspect_ratio : Option (Nat × Nat)
  framerate : Option (Nat × Nat)
  bitrate : Option Nat
  avc_sequence_header : Option Buffer
deriving DecidableEq, Repr

/-- The custom `PartialEq for VideoFormat` (source lines 342-351): compares every
field except `bitrate`. -/
def VideoFormat.peq (a b : VideoFormat) : Bool :=
  decide (a.format = b.format) && decide (a.width = b.width) &&
  decide (a.height = b.height) && decide (a.pixel_aspect_ratio = b.pixel_aspect_ratio) &&
  decide (a.framerate = b.framerate) && decide (a.avc_sequence_header = b.avc_sequence_header)

/-- `Option<VideoFormat>` inequality against `Some`, using the custom `PartialEq`. -/
def videoNe (o : Option VideoFormat) (f : VideoFormat) : Bool :=
  match o with
  | none => true
  | some a => !(a.peq f)

/-- `AudioFormat::new` (source lines 103-136). -/
def AudioFormat.new (data_header : AudioDataHeader) (metadata : Option Metadata)
    (aac_sequence_header : Option Buffer) : AudioFormat :=
  let numeric_rate : Nat :=
    match data_header.sound_format, data_header.sound_rate with
    | .NELLYMOSER_16KHZ_MONO, _ => 16000
    | .NELLYMOSER_8KHZ_MONO, _ => 8000
    | .MP3_8KHZ, _ => 8000
    | .SPEEX, _ => 16000
    | _, .Rate5_5KHZ => 5512
    | _, .Rate11KHZ => 11025
    | _, .Rate22KHZ => 22050
    | _, .Rate44KHZ => 44100
  let numeric_width : Nat :=
    match data_header.sound_size with
    | .Snd8bit => 8
    | .Snd16bit => 16
  let numeric_channels : Nat :=
    match data_header.sound_type with
    | .SndMono => 1
    | .SndStereo => 2
  { format := data_header.sound_format
    rate := numeric_rate
    width := numeric_width
    channels := numeric_channels
    bitrate := metadata.bind (fun m => m.audio_bitrate)
    aac_sequence_header := aac_sequence_header }

/-- `AudioFormat::update_with_metadata` (source lines 138-147): refreshes
`bitrate` only; returns the updated format and the `changed` flag. -/
def AudioFormat.update_with_metadata (f : AudioFormat) (metadata : Metadata) :
    AudioFormat × Bool :=
  if f.bitrate ≠ metadata.audio_bitrate then
    ({ f with bitrate := metadata.audio_bitrate }, true)
  else
    (f, false)

/-- `AudioFormat::to_caps` (source lines 153-219). -/
def AudioFormat.to_caps (f : AudioFormat) : Option Caps :=
  let caps : Option Caps :=
    match f.format with
    | .MP3 | .MP3_8KHZ =>
      some (Caps.new_simple "audio/mpeg" [("mpegversion", .int 1), ("layer", .int 3)])
    | .PCM_NE | .PCM_LE =>
      if f.rate ≠ 0 ∧ f.channels ≠ 0 then
        some (Caps.new_simple "audio/x-raw"
          [("layout", .str "interleaved"),
           ("format", .str (if f.width = 8 then "U8" else "S16LE"))])
      else
        none
    | .ADPCM =>
      some (Caps.new_simple "audio/x-adpcm" [("layout", .str "swf")])
    | .NELLYMOSER_16KHZ_MONO | .NELLYMOSER_8KHZ_MONO | .NELLYMOSER =>
      some (Caps.new_simple "audio/x-nellymoser" [])
    | .PCM_ALAW => some (Caps.new_simple "audio/x-alaw" [])
    | .PCM_ULAW => some (Caps.new_simple "audio/x-mulaw" [])
    | .AAC =>
      f.aac_sequence_header.map (fun header =>
        Caps.new_simple "audio/mpeg"
          [("mpegversion", .int 4), ("framed", .bool true),
           ("stream-format", .str "raw"), ("codec_data", .buffer header)])
    | .SPEEX => none
    | .DEVICE_SPECIFIC => none
  let caps := if f.rate ≠ 0 then caps.map (fun c => c.set_simple [("rate", .int f.rate)]) else caps
  let caps :=
    if f.channels ≠ 0 then caps.map (fun c => c.set_simple [("channels", .int f.channels)])
    else caps
  caps

/-- `VideoFormat::new` (source lines 233-247). -/
def VideoFormat.new (data_header : VideoDataHeader) (metadata : Option Metadata)
    (avc_sequence_header : Option Buffer) : VideoFormat :=
  { format := data_header.codec_id
    width := metadata.bind (fun m => m.video_width)
    height := metadata.bind (fun m => m.video_height)
    pixel_aspect_ratio := metadata.bind (fun m => m.video_pixel_aspect_ratio)
    framerate := metadata.bind (fun m => m.video_framerate)
    bitrate := metadata.bind (fun m => m.video_bitrate)
    avc_sequence_header := avc_sequence_header }

/-- `VideoFormat::update_with_metadata` (source lines 249-278): refreshes
`width`, `height`, `pixel_aspect_ratio`, `framerate`, `bitrate`; returns the
updated format and the `changed` flag. -/
def VideoFormat.update_with_metadata (f : VideoFormat) (metadata : Metadata) :
    VideoFormat × Bool :=
  let (f, changed) :=
    if f.width ≠ metadata.video_width then
      ({ f with width := metadata.video_width }, true)
    else (f, false)
  let (f, changed) :=
    if f.height ≠ metadata.video_height then
      ({ f with height := metadata.video_height }, true)
    else (f, changed)
  let (f, changed) :=
    if f.pixel_aspect_ratio ≠ metadata.video_pixel_aspect_ratio then
      ({ f with pixel_aspect_ratio := metadata.video_pixel_aspect_ratio }, true)
    else (f, changed)
  let (f, changed) :=
    if f.framerate ≠ metadata.video_framerate then
      ({ f with framerate := metadata.video_framerate }, true)
    else (f, changed)
  let (f, changed) :=
    if f.bitrate ≠ metadata.video_bitrate then
      ({ f with bitrate := metadata.video_bitrate }, true)
    else (f, changed)
  (f, changed)

/-- `VideoFormat::to_caps` (source lines 284-339). -/
def VideoFormat.to_caps (f : VideoFormat) : Option Caps :=
  let caps : Option Caps :=
    match f.format with
    | .SORENSON_H263 =>
      some (Caps.new_simple "video/x-flash-video" [("flvversion", .int 1)])
    | .SCREEN => some (Caps.new_simple "video/x-flash-screen" [])
    | .VP6 => some (Caps.new_simple "video/x-vp6-flash" [])
    | .VP6A => some (Caps.new_simple "video/x-vp6-flash-alpha" [])
    | .SCREEN2 => some (Caps.new_simple "video/x-flash-screen2" [])
    | .H264 =>
      f.avc_sequence_header.map (fun header =>
        Caps.new_simple "video/x-h264"
          [("stream-format", .str "avc"), ("codec_data", .buffer header)])
    | .H263 => some (Caps.new_simple "video/x-h263" [])
    | .MPEG4Part2 =>
      some (Caps.new_simple "video/x-h263"
        [("mpegversion", .int 4), ("systemstream", .bool false)])
    | .JPEG => none
  let caps :=
    match f.width, f.height with
    | some width, some height =>
      caps.map (fun c => c.set_simple [("width", .int width), ("height", .int height)])
    | _, _ => caps
  let caps :=
    match f.pixel_aspect_ratio with
    | some par =>
      if par.1 ≠ 0 ∧ par.2 ≠ 0 then
        caps.map (fun c => c.set_simple [("pixel-aspect-ratio", .fraction par.1 par.2)])
      else caps
    | none => caps
  let caps :=
    match f.framerate with
    | some fps =>
      if fps.2 ≠ 0 then
        caps.map (fun c => c.set_simple [("framerate", .fraction fps.1 fps.2)])
      else caps
    | none => caps
  caps

end Flv

namespace Flv

/-- u32 wrap-around of an integer (`as u32`). -/
def u32OfInt (i : Int) : Nat := (i % (2 ^ 32 : Int)).toNat

/-- u32 subtraction with wrap-around (release-mode Rust `a - b` on `u32`). -/
def u32sub (a b : Nat) : Nat := (((a : Int) - (b : Int)) % (2 ^ 32 : Int)).toNat

/-- u64 wrap-around of an integer (`as u64` on an `i64`). -/
def u64OfInt (i : Int) : Nat := (i % (2 ^ 64 : Int)).toNat

/-- u64 wrap-around of a natural (release-mode Rust `u64` arithmetic). -/
def u64wrap (n : Nat) : Nat := n % 2 ^ 64

/-- `Adapter::flush(n)`: drops `n` bytes; fails (panic on `.unwrap()`) when fewer
than `n` bytes are available. -/
def aflush (n : Nat) (a : List Nat) : Option (List Nat) :=
  if n ≤ a.length then some (a.drop n) else none

/-- `Adapter::get_buffer(n)`: takes `n` bytes off the front; fails when fewer
than `n` bytes are available. -/
def atake (n : Nat) (a : List Nat) : Option (List Nat × List Nat) :=
  if n ≤ a.length then some (a.take n, a.drop n) else none

/-- `Adapter::peek_into` with an `n`-byte window: non-destructive read of the
first `n` bytes; fails when fewer than `n` bytes are available. -/
def apeek (n : Nat) (a : List Nat) : Option (List Nat) :=
  if n ≤ a.length then some (a.take n) else none

/-- `State` (source lines 40-50). -/
inductive State where
  | Stopped
  | NeedHeader
  | Skipping (audio : Bool) (video : Bool) (skip_left : Nat)
  | Streaming
deriving DecidableEq, Repr

/-- `StreamingState` (source lines 52-65). -/
structure StreamingState where
  audio : Option AudioFormat
  expect_audio : Bool
  video : Option VideoFormat
  expect_video : Bool
  got_all_streams : Bool
  last_position : Option Nat
  metadata : Option Metadata
  aac_sequence_header : Option Buffer
  avc_sequence_header : Option Buffer
deriving DecidableEq, Repr

/-- `StreamingState::new` (source lines 67-80). -/
def StreamingState.new (audio video : Bool) : StreamingState :=
  { audio := none
    expect_audio := audio
    video := none
    expect_video := video
    got_all_streams := false
    last_position := none
    metadata := none
    aac_sequence_header := none
    avc_sequence_header := none }

/-- `FlvDemux` (source lines 451-458): top-level state, the byte adapter, and
the streaming sub-state. -/
structure FlvDemux where
  state : State
  adapter : List Nat
  streaming_state : Option StreamingState
deriving DecidableEq, Repr

/-- `FlvDemux::new`. -/
def FlvDemux.new : FlvDemux :=
  { state := .Stopped, adapter := [], streaming_state := none }

/-- The external `flavors` field parsers (and nom's `be_u32`), pure functions on
byte slices returning a typed record or a parse error (`none`).  They are not
part of this repository's sources, so the demuxer functions are parametric over
them. -/
structure Parsers where
  header : List Nat → Option Header
  tag_header : List Nat → Option TagHeader
  audio_data_header : List Nat → Option AudioDataHeader
  video_data_header : List Nat → Option VideoDataHeader
  aac_audio_packet_header : List Nat → Option AACAudioPacketHeader
  avc_video_packet_header : List Nat → Option AVCVideoPacketHeader
  script_data : List Nat → Option ScriptData
  be_u32 : List Nat → Option Nat

/-- The tail of `update_audio_stream` (source lines 573-580): the
have-all-streams latch check, entered with the possibly updated streaming
state. -/
def updateAudioStreamTail (d : FlvDemux) (ss : StreamingState) :
    Option (FlvDemux × HandleBufferResult) :=
  if !ss.got_all_streams && ss.audio.isSome &&
     (ss.expect_video && ss.video.isSome || !ss.expect_video) then
    some ({ d with streaming_state := some { ss with got_all_streams := true } },
          .HaveAllStreams)
  else
    some ({ d with streaming_state := some ss }, .Again)

/-- `update_audio_stream` (source lines 543-581). -/
def updateAudioStream (d : FlvDemux) (data_header : AudioDataHeader) :
    Option (FlvDemux × HandleBufferResult) :=
  match d.streaming_state with
  | none => none
  | some ss =>
    let new_audio_format := AudioFormat.new data_header ss.metadata ss.aac_sequence_header
    if audioNe ss.audio new_audio_format then
      let new_stream := ss.audio.isNone
      match new_audio_format.to_caps with
      | some caps =>
        let ss := { ss with audio := some new_audio_format }
        let stream : Stream := ⟨AUDIO_STREAM_ID, caps, "audio"⟩
        if new_stream then
          some ({ d with streaming_state := some ss }, .StreamAdded stream)
        else
          some ({ d with streaming_state := some ss }, .StreamChanged stream)
      | none =>
        updateAudioStreamTail d { ss with audio := none }
    else
      updateAudioStreamTail d ss

/-- The tail of `update_video_stream` (source lines 713-720): the
have-all-streams latch check. -/
def updateVideoStreamTail (d : FlvDemux) (ss : StreamingState) :
    Option (FlvDemux × HandleBufferResult) :=
  if !ss.got_all_streams && ss.video.isSome &&
     (ss.expect_audio && ss.audio.isSome || !ss.expect_audio) then
    some ({ d with streaming_state := some { ss with got_all_streams := true } },
          .HaveAllStreams)
  else
    some ({ d with streaming_state := some ss }, .Again)

/-- `update_video_stream` (source lines 682-721). -/
def updateVideoStream (d : FlvDemux) (data_header : VideoDataHeader) :
    Option (FlvDemux × HandleBufferResult) :=
  match d.streaming_state with
  | none => none
  | some ss =>
    let new_video_format := VideoFormat.new data_header ss.metadata ss.avc_sequence_header
    if videoNe ss.video new_video_format then
      let new_stream := ss.video.isNone
      match new_video_format.to_caps with
      | some caps =>
        let ss := { ss with video := some new_video_format }
        let stream : Stream := ⟨VIDEO_STREAM_ID, caps, "video"⟩
        if new_stream then
          some ({ d with streaming_state := some ss }, .StreamAdded stream)
        else
          some ({ d with streaming_state := some ss }, .StreamChanged stream)
      | none =>
        updateVideoStreamTail d { ss with video := none }
    else
      updateVideoStreamTail d ss

/-- `handle_script_tag` (source lines 478-541). -/
def handleScriptTag (p : Parsers) (d : FlvDemux) (tag_header : TagHeader) :
    Option (FlvDemux × HandleBufferResult) :=
  if d.adapter.length < 15 + tag_header.data_size then
    some (d, .NeedMoreData)
  else
    match aflush 15 d.adapter with
    | none => none
    | some a =>
      match atake tag_header.data_size a with
      | none => none
      | some (payload, a) =>
        match p.script_data payload with
        | some script_data =>
          if script_data.name = "onMetaData" then
            let metadata := script_data.asMetadata
            match d.streaming_state with
            | none => none
            | some ss =>
              let audioUpd : Option AudioFormat × Bool :=
                match ss.audio with
                | some f => let r := f.update_with_metadata metadata; (some r.1, r.2)
                | none => (none, false)
              let videoUpd : Option VideoFormat × Bool :=
                match ss.video with
                | some f => let r := f.update_with_metadata metadata; (some r.1, r.2)
                | none => (none, false)
              let ss := { ss with audio := audioUpd.1, video := videoUpd.1,
                                  metadata := some metadata }
              let d := { d with adapter := a, streaming_state := some ss }
              if audioUpd.2 || videoUpd.2 then
                let streams : List Stream :=
                  (if audioUpd.2 then
                    match ss.audio.bind AudioFormat.to_caps with
                    | some caps => [⟨AUDIO_STREAM_ID, caps, "audio"⟩]
                    | none => []
                  else []) ++
                  (if videoUpd.2 then
                    match ss.video.bind VideoFormat.to_caps with
                    | some caps => [⟨VIDEO_STREAM_ID, caps, "video"⟩]
                    | none => []
                  else [])
                some (d, .StreamsChanged streams)
              else
                some (d, .Again)
          else
            some ({ d with adapter := a }, .Again)
        | none =>
          some ({ d with adapter := a }, .Again)

/-- The per-codec audio payload offset (source lines 650-653): 1 for AAC, 0
otherwise. -/
def audioCodecOffset (f : SoundFormat) : Nat :=
  match f with
  | .AAC => 1
  | _ => 0

/-- The per-codec video payload offset (source lines 799-804): 1 for VP6/VP6A,
4 for H264, 0 otherwise. -/
def videoCodecOffset (f : CodecId) : Nat :=
  match f with
  | .VP6 | .VP6A => 1
  | .H264 => 4
  | _ => 0

/-- The generic audio payload extraction (source lines 640-679): everything in
`handle_audio_tag` after the AAC special case. -/
def handleAudioTagRest (d : FlvDemux) (tag_header : TagHeader) :
    Option (FlvDemux × HandleBufferResult) :=
  match d.streaming_state with
  | none => none
  | some ss =>
    match ss.audio with
    | none =>
      match aflush (tag_header.data_size + 15) d.adapter with
      | none => none
      | some a => some ({ d with adapter := a }, .Again)
    | some audio =>
      match aflush 16 d.adapter with
      | none => none
      | some a =>
        let offset : Nat := audioCodecOffset audio.format
        if tag_header.data_size = 0 then
          some ({ d with adapter := a }, .Again)
        else if tag_header.data_size < offset then
          match aflush (tag_header.data_size - 1) a with
          | none => none
          | some a => some ({ d with adapter := a }, .Again)
        else
          match (if 0 < offset then aflush offset a else some a) with
          | none => none
          | some a =>
            match atake (u32sub (tag_header.data_size - 1) offset) a with
            | none => none
            | some (payload, a) =>
              let buffer : Buffer :=
                { data := payload,
                  pts := some (u64wrap (tag_header.timestamp * 1000 * 1000)) }
              some ({ d with adapter := a }, .BufferForStream AUDIO_STREAM_ID buffer)

/-- `handle_audio_tag` (source lines 583-680). -/
def handleAudioTag (p : Parsers) (d : FlvDemux) (tag_header : TagHeader)
    (data_header : AudioDataHeader) : Option (FlvDemux × HandleBufferResult) :=
  match updateAudioStream d data_header with
  | none => none
  | some (d, res) =>
    match res with
    | .Again =>
      if d.adapter.length < 15 + tag_header.data_size then
        some (d, .NeedMoreData)
      else if data_header.sound_format = .AAC then
        -- AAC special case
        if tag_header.data_size < 1 + 1 then
          match aflush (15 + tag_header.data_size) d.adapter with
          | none => none
          | some a => some ({ d with adapter := a }, .Again)
        else
          match apeek 17 d.adapter with
          | none => none
          | some data =>
            match p.aac_audio_packet_header (data.drop 16) with
            | none => none
            | some header =>
              match header.packet_type with
              | .SequenceHeader =>
                match aflush (15 + 1 + 1) d.adapter with
                | none => none
                | some a =>
                  match atake (tag_header.data_size - 1 - 1) a with
                  | none => none
                  | some (payload, a) =>
                    match d.streaming_state with
                    | none => none
                    | some ss =>
                      let ss := { ss with aac_sequence_header := some { data := payload } }
                      some ({ d with adapter := a, streaming_state := some ss }, .Again)
              | .Raw => handleAudioTagRest d tag_header
      else
        handleAudioTagRest d tag_header
    | _ => some (d, res)

/-- The pts the video path computes in milliseconds (source lines 828-833):
wrap-guarded `timestamp + cts`, clamped to zero when `cts` is negative and
larger in magnitude than the timestamp. -/
def videoPtsMs (timestamp : Nat) (cts : Int) : Nat :=
  if cts < 0 ∧ timestamp < u32OfInt (-cts) then 0
  else u64OfInt ((timestamp : Int) + cts)

/-- The generic video payload extraction (source lines 787-843): everything in
`handle_video_tag` after the AVC special case, with `cts` as captured there. -/
def handleVideoTagRest (d : FlvDemux) (tag_header : TagHeader)
    (data_header : VideoDataHeader) (cts : Int) :
    Option (FlvDemux × HandleBufferResult) :=
  match d.streaming_state with
  | none => none
  | some ss =>
    match ss.video with
    | none =>
      match aflush (tag_header.data_size + 15) d.adapter with
      | none => none
      | some a => some ({ d with adapter := a }, .Again)
    | some video =>
      let is_keyframe : Bool := decide (data_header.frame_type = .Key)
      match aflush 16 d.adapter with
      | none => none
      | some a =>
        let offset : Nat := videoCodecOffset video.format
        if tag_header.data_size = 0 then
          some ({ d with adapter := a }, .Again)
        else if tag_header.data_size < offset then
          match aflush (tag_header.data_size - 1) a with
          | none => none
          | some a => some ({ d with adapter := a }, .Again)
        else
          match (if 0 < offset then aflush offset a else some a) with
          | none => none
          | some a =>
            match atake (u32sub (tag_header.data_size - 1) offset) a with
            | none => none
            | some (payload, a) =>
              let buffer : Buffer :=
                { data := payload,
                  delta_unit := !is_keyframe,
                  dts := some (u64wrap (tag_header.timestamp * 1000 * 1000)),
                  pts := some (u64wrap (videoPtsMs tag_header.timestamp cts * 1000 * 1000)) }
              some ({ d with adapter := a }, .BufferForStream VIDEO_STREAM_ID buffer)

/-- `handle_video_tag` (source lines 723-844). -/
def handleVideoTag (p : Parsers) (d : FlvDemux) (tag_header : TagHeader)
    (data_header : VideoDataHeader) : Option (FlvDemux × HandleBufferResult) :=
  match updateVideoStream d data_header with
  | none => none
  | some (d, res) =>
    match res with
    | .Again =>
      if d.adapter.length < 15 + tag_header.data_size then
        some (d, .NeedMoreData)
      else if data_header.codec_id = .H264 then
        -- AVC/H264 special case
        if tag_header.data_size < 1 + 4 then
          match aflush (15 + tag_header.data_size) d.adapter with
          | none => none
          | some a => some ({ d with adapter := a }, .Again)
        else
          match apeek 20 d.adapter with
          | none => none
          | some data =>
            match p.avc_video_packet_header (data.drop 16) with
            | none => none
            | some header =>
              match header.packet_type with
              | .SequenceHeader =>
                match aflush (15 + 1 + 4) d.adapter with
                | none => none
                | some a =>
                  match atake (tag_header.data_size - 1 - 4) a with
                  | none => none
                  | some (payload, a) =>
                    match d.streaming_state with
                    | none => none
                    | some ss =>
                      let ss := { ss with avc_sequence_header := some { data := payload } }
                      some ({ d with adapter := a, streaming_state := some ss }, .Again)
              | .NALU =>
                handleVideoTagRest d tag_header data_header header.composition_time
              | .EndOfSequence =>
                match aflush (15 + tag_header.data_size) d.adapter with
                | none => none
                | some a => some ({ d with adapter := a }, .Again)
      else
        handleVideoTagRest d tag_header data_header 0
    | _ => some (d, res)

/-- The `NeedHeader` search loop (source lines 850-881): peek 9 bytes, accept on
a header parse, flush 1 and retry on a parse failure, stop when fewer than 9
bytes remain. -/
def needHeaderLoop (p : Parsers) (a : List Nat) : List Nat × Option Header :=
  if h : 9 ≤ a.length then
    match p.header (a.take 9) with
    | some header => (a.drop 9, some header)
    | none => needHeaderLoop p (a.drop 1)
  else
    (a, none)
termination_by a.length
decreasing_by
  simp only [List.length_drop]
  omega

/-- `update_state` (source lines 846-977). -/
def updateState (p : Parsers) (d : FlvDemux) : Option (FlvDemux × HandleBufferResult) :=
  match d.state with
  | .Stopped => none
  | .NeedHeader =>
    match needHeaderLoop p d.adapter with
    | (a, some header) =>
      let skip := if header.offset < 9 then 0 else header.offset - 9
      let d := { d with adapter := a, state := State.Skipping header.audio header.video skip }
      some (d, .Again)
    | (a, none) =>
      some ({ d with adapter := a }, .NeedMoreData)
  | .Skipping audio video 0 =>
    let d := { d with state := State.Streaming,
                      streaming_state := some (StreamingState.new audio video) }
    some (d, .Again)
  | .Skipping audio video (n + 1) =>
    let skip := min d.adapter.length (n + 1)
    match aflush skip d.adapter with
    | none => none
    | some a =>
      some ({ d with adapter := a, state := .Skipping audio video (n + 1 - skip) },
            .Again)
  | .Streaming =>
    if d.adapter.length < 16 then
      some (d, .NeedMoreData)
    else
      match apeek 16 d.adapter with
      | none => none
      | some data =>
        match p.be_u32 (data.take 4) with
        | none => none
        | some _previous_size =>
          match p.tag_header (data.drop 4) with
          | none => none
          | some tag_header =>
            let res : Option (FlvDemux × HandleBufferResult) :=
              match tag_header.tag_type with
              | .Script => handleScriptTag p d tag_header
              | .Audio =>
                match p.audio_data_header (data.drop 15) with
                | none => none
                | some data_header => handleAudioTag p d tag_header data_header
              | .Video =>
                match p.video_data_header (data.drop 15) with
                | none => none
                | some data_header => handleVideoTag p d tag_header data_header
            match res with
            | some (d, .BufferForStream i buffer) =>
              match d.streaming_state with
              | none => none
              | some ss =>
                let lp : Option Nat :=
                  match buffer.pts with
                  | some pts =>
                    some (match ss.last_position with
                          | some last => max last pts
                          | none => pts)
                  | none =>
                    match buffer.dts with
                    | some dts =>
                      some (match ss.last_position with
                            | some last => max last dts
                            | none => dts)
                    | none => ss.last_position
                some ({ d with streaming_state := some { ss with last_position := lp } },
                      .BufferForStream i buffer)
            | r => r

/-- `Demuxer::start` (source lines 981-988). -/
def start (d : FlvDemux) : FlvDemux :=
  { d with state := .NeedHeader }

/-- `Demuxer::stop` (source lines 990-996). -/
def stop (d : FlvDemux) : FlvDemux :=
  { d with state := .Stopped, adapter := [], streaming_state := none }

/-- `Demuxer::handle_buffer` (source lines 1002-1008): push the buffer's bytes
into the adapter if present, then run `update_state` once. -/
def handleBuffer (p : Parsers) (d : FlvDemux) (buffer : Option Buffer) :
    Option (FlvDemux × HandleBufferResult) :=
  let d :=
    match buffer with
    | some b => { d with adapter := d.adapter ++ b.data }
    | none => d
  updateState p d

/-- `Demuxer::get_duration` (source lines 1027-1034). -/
def get_duration (d : FlvDemux) : Option Nat :=
  match d.streaming_state with
  | some ss =>
    match ss.metadata with
    | some m => m.duration
    | none => none
  | none => none

/-- `Demuxer::get_position` (source lines 1019-1025). -/
def get_position (d : FlvDemux) : Option Nat :=
  match d.streaming_state with
  | some ss => ss.last_position
  | none => none

end Flv

namespace Flv

/-- A 24-bit big-endian signed value from a 24-bit unsigned one. -/
def signed24 (n : Nat) : Int :=
  if n < 2 ^ 23 then (n : Int) else (n : Int) - 2 ^ 24

/-- Modelled from the spec: the external `flavors::header` parser of the 9-byte
FLV file header, `"FLV" version flags offset(u32be)` with the audio flag in bit
2 of `flags` and the video flag in bit 0. -/
def parseHeaderBytes (bytes : List Nat) : Option Header :=
  match bytes with
  | 0x46 :: 0x4c :: 0x56 :: version :: flags :: o1 :: o2 :: o3 :: o4 :: _ =>
    some { version := version
           audio := decide (flags / 4 % 2 = 1)
           video := decide (flags % 2 = 1)
           offset := ((o1 * 256 + o2) * 256 + o3) * 256 + o4 }
  | _ => none

/-- Modelled from the spec: the external `flavors::tag_header` parser,
`type(u8) | data_size(u24be) | timestamp(u24be) | timestamp_ext(u8) |
stream_id(u24be)` with tag types 8 (audio), 9 (video), 18 (script). -/
def parseTagHeaderBytes (bytes : List Nat) : Option TagHeader :=
  match bytes with
  | t :: s1 :: s2 :: s3 :: t1 :: t2 :: t3 :: ext :: i1 :: i2 :: i3 :: _ =>
    let tag_type : Option TagType :=
      if t = 8 then some .Audio else if t = 9 then some .Video
      else if t = 18 then some .Script else none
    tag_type.map (fun tt =>
      { tag_type := tt
        data_size := (s1 * 256 + s2) * 256 + s3
        timestamp := ext * 2 ^ 24 + ((t1 * 256 + t2) * 256 + t3)
        stream_id := (i1 * 256 + i2) * 256 + i3 })
  | _ => none

/-- Modelled from the spec: the external `flavors::audio_data_header` parser of
the 1-byte audio data header, `format:4 | rate:2 | size:1 | type:1`. -/
def parseAudioDataHeaderBytes (bytes : List Nat) : Option AudioDataHeader :=
  match bytes with
  | b :: _ =>
    let format : Option SoundFormat :=
      match b / 16 with
      | 0 => some .PCM_NE | 1 => some .ADPCM | 2 => some .MP3 | 3 => some .PCM_LE
      | 4 => some .NELLYMOSER_16KHZ_MONO | 5 => some .NELLYMOSER_8KHZ_MONO
      | 6 => some .NELLYMOSER | 7 => some .PCM_ALAW | 8 => some .PCM_ULAW
      | 10 => some .AAC | 11 => some .SPEEX | 14 => some .MP3_8KHZ
      | 15 => some .DEVICE_SPECIFIC | _ => none
    let rate : SoundRate :=
      match b / 4 % 4 with
      | 0 => .Rate5_5KHZ | 1 => .Rate11KHZ | 2 => .Rate22KHZ | _ => .Rate44KHZ
    format.map (fun f =>
      { sound_format := f
        sound_rate := rate
        sound_size := if b / 2 % 2 = 0 then .Snd8bit else .Snd16bit
        sound_type := if b % 2 = 0 then .SndMono else .SndStereo })
  | _ => none

/-- Modelled from the spec: the external `flavors::video_data_header` parser of
the 1-byte video data header, `frame_type:4 | codec_id:4`. -/
def parseVideoDataHeaderBytes (bytes : List Nat) : Option VideoDataHeader :=
  match bytes with
  | b :: _ =>
    let frame : Option FrameType :=
      match b / 16 with
      | 1 => some .Key | 2 => some .Inter | 3 => some .DisposableInter
      | 4 => some .Generated | 5 => some .Command | _ => none
    let codec : Option CodecId :=
      match b % 16 with
      | 1 => some .JPEG | 2 => some .SORENSON_H263 | 3 => some .SCREEN
      | 4 => some .VP6 | 5 => some .VP6A | 6 => some .SCREEN2
      | 7 => some .H264 | 8 => some .H263 | 9 => some .MPEG4Part2 | _ => none
    match frame, codec with
    | some ft, some c => some { frame_type := ft, codec_id := c }
    | _, _ => none
  | _ => none

/-- Modelled from the spec: the external `flavors::aac_audio_packet_header`
parser, a 1-byte AAC packet type (0 sequence header, 1 raw). -/
def parseAacPacketHeaderBytes (bytes : List Nat) : Option AACAudioPacketHeader :=
  match bytes with
  | 0 :: _ => some { packet_type := .SequenceHeader }
  | 1 :: _ => some { packet_type := .Raw }
  | _ => none

/-- Modelled from the spec: the external `flavors::avc_video_packet_header`
parser, a 1-byte AVC packet type (0 sequence header, 1 NALU, 2 end of sequence)
followed by a 24-bit signed big-endian composition time. -/
def parseAvcPacketHeaderBytes (bytes : List Nat) : Option AVCVideoPacketHeader :=
  match bytes with
  | b0 :: b1 :: b2 :: b3 :: _ =>
    let pt : Option AVCPacketType :=
      if b0 = 0 then some .SequenceHeader else if b0 = 1 then some .NALU
      else if b0 = 2 then some .EndOfSequence else none
    pt.map (fun t =>
      { packet_type := t, composition_time := signed24 ((b1 * 256 + b2) * 256 + b3) })
  | _ => none

/-- Modelled from the spec: nom's `be_u32` on the previous-tag-size field. -/
def parseBeU32Bytes (bytes : List Nat) : Option Nat :=
  match bytes with
  | a :: b :: c :: d :: _ => some (((a * 256 + b) * 256 + c) * 256 + d)
  | _ => none

/-- A concrete `Parsers` instance built from the spec-modelled byte parsers; the
AMF0 script-data parser is stood in by constant parse failure (its output never
matters for the claims below, which quantify over arbitrary parsers). -/
def specParsers : Parsers :=
  { header := parseHeaderBytes
    tag_header := parseTagHeaderBytes
    audio_data_header := parseAudioDataHeaderBytes
    video_data_header := parseVideoDataHeaderBytes
    aac_audio_packet_header := parseAacPacketHeaderBytes
    avc_video_packet_header := parseAvcPacketHeaderBytes
    script_data := fun _ => none
    be_u32 := parseBeU32Bytes }

end Flv

namespace Flv

/-- Whether a result is a `StreamAdded` or `StreamChanged` event. -/
def HandleBufferResult.isStreamEvent : HandleBufferResult → Bool
  | .StreamAdded _ => true
  | .StreamChanged _ => true
  | _ => false

/-- Whether a result is a `BufferForStream` event. -/
def HandleBufferResult.isBuffer : HandleBufferResult → Bool
  | .BufferForStream _ _ => true
  | _ => false

/-- The published VP6 video format for the C2 scenario: what `VideoFormat::new`
builds from a VP6 inter-frame data header with no metadata and no AVC sequence
header. -/
def c2Video : VideoFormat := VideoFormat.new ⟨.Inter, .VP6⟩ none none

/-- The C2 demuxer: streaming, VP6 published, all streams announced, 30 bytes
buffered. -/
def c2Demux : FlvDemux :=
  { state := .Streaming
    adapter := List.replicate 30 0
    streaming_state := some
      { audio := none
        expect_audio := false
        video := some c2Video
        expect_video := true
        got_all_streams := true
        last_position := none
        metadata := none
        aac_sequence_header := none
        avc_sequence_header := none } }

/-- The C2 tag header: a video tag with `data_size = 1`. -/
def c2TagHeader : TagHeader :=
  { tag_type := .Video, data_size := 1, timestamp := 0, stream_id := 0 }

/-- An MP3 44.1kHz stereo data header (scenario input). -/
def mp3DataHeader : AudioDataHeader :=
  { sound_format := .MP3, sound_rate := .Rate44KHZ
    sound_size := .Snd16bit, sound_type := .SndStereo }

/-- The audio format `AudioFormat::new` builds from `mp3DataHeader` with no
metadata. -/
def mp3Format : AudioFormat := AudioFormat.new mp3DataHeader none none

/-- C4 scenario: the published MP3 format, differing from the prospective one
only in `bitrate`. -/
def c4Audio : AudioFormat := { mp3Format with bitrate := some 999 }

/-- C4 scenario streaming state. -/
def c4SS : StreamingState :=
  { audio := some c4Audio, expect_audio := true, video := none, expect_video := false
    got_all_streams := true, last_position := none, metadata := none
    aac_sequence_header := none, avc_sequence_header := none }

/-- C4 scenario demuxer. -/
def c4Demux : FlvDemux :=
  { state := .Streaming, adapter := [], streaming_state := some c4SS }

/-- C5 scenario: a valid 9-byte FLV header (`"FLV" 01 05`, offset 9) in the
adapter of a `NeedHeader` demuxer. -/
def c5Demux : FlvDemux :=
  { state := .NeedHeader
    adapter := [0x46, 0x4c, 0x56, 1, 5, 0, 0, 0, 9]
    streaming_state := none }

/-- An AAC data header (scenario input). -/
def aacDataHeader : AudioDataHeader :=
  { sound_format := .AAC, sound_rate := .Rate44KHZ
    sound_size := .Snd16bit, sound_type := .SndStereo }

/-- C6 scenario streaming state: nothing published yet, no cached AAC setup. -/
def c6SS : StreamingState :=
  { audio := none, expect_audio := true, video := none, expect_video := false
    got_all_streams := false, last_position := none, metadata := none
    aac_sequence_header := none, avc_sequence_header := none }

/-- C6 scenario adapter: 15 preamble bytes, the AAC codec byte, packet type 0
(sequence header) and a 5-byte setup payload (`data_size = 7`). -/
def c6Adapter : List Nat := List.range 15 ++ [0xAF, 0] ++ [1, 2, 3, 4, 5]

/-- C6 scenario demuxer. -/
def c6Demux : FlvDemux :=
  { state := .Streaming, adapter := c6Adapter, streaming_state := some c6SS }

/-- C6 scenario tag header (`data_size = 7`). -/
def c6TagHeader : TagHeader :=
  { tag_type := .Audio, data_size := 7, timestamp := 0, stream_id := 0 }

/-- An H.264 inter-frame data header (scenario input). -/
def h264DataHeader : VideoDataHeader := { frame_type := .Inter, codec_id := .H264 }

/-- A cached AVC sequence-header blob (scenario input). -/
def avcBlob : Buffer := { data := [7, 7, 7] }

/-- C1 scenario: the published H.264 format built from `h264DataHeader` with the
cached AVC setup blob. -/
def c1Video : VideoFormat := VideoFormat.new h264DataHeader none (some avcBlob)

/-- C1 scenario streaming state. -/
def c1SS : StreamingState :=
  { audio := none, expect_audio := false, video := some c1Video, expect_video := true
    got_all_streams := true, last_position := none, metadata := none
    aac_sequence_header := none, avc_sequence_header := some avcBlob }

/-- C1 scenario adapter: 16 preamble bytes, AVC packet type 1 (NALU), 24-bit
composition time `0xFFFFD8 = -40`, and a 5-byte NALU payload (`data_size = 10`). -/
def c1Adapter : List Nat := List.range 16 ++ [1, 0xFF, 0xFF, 0xD8] ++ [9, 9, 9, 9, 9]

/-- C1 scenario demuxer. -/
def c1Demux : FlvDemux :=
  { state := .Streaming, adapter := c1Adapter, streaming_state := some c1SS }

/-- C1 scenario tag header: video tag, `data_size = 10`, timestamp 100 ms. -/
def c1TagHeader : TagHeader :=
  { tag_type := .Video, data_size := 10, timestamp := 100, stream_id := 0 }

/-- C7 scenario streaming state: MP3 published, all streams announced. -/
def mp3SS : StreamingState :=
  { audio := some mp3Format, expect_audio := true, video := none, expect_video := false
    got_all_streams := true, last_position := none, metadata := none
    aac_sequence_header := none, avc_sequence_header := none }

/-- C7 scenario demuxer: 20 distinct bytes buffered. -/
def c7Demux : FlvDemux :=
  { state := .Streaming, adapter := List.range 20, streaming_state := some mp3SS }

/-- C7 scenario tag header: audio tag, `data_size = 5`, timestamp 42 ms. -/
def c7TagHeader : TagHeader :=
  { tag_type := .Audio, data_size := 5, timestamp := 42, stream_id := 0 }

/-- C8 scenario streaming state: MP3 published, video not expected, latch not
yet set. -/
def c8SS : StreamingState :=
  { audio := some mp3Format, expect_audio := true, video := none, expect_video := false
    got_all_streams := false, last_position := none, metadata := none
    aac_sequence_header := none, avc_sequence_header := none }

/-- C8 scenario demuxer. -/
def c8Demux : FlvDemux :=
  { state := .Streaming, adapter := [], streaming_state := some c8SS }

/-- C8 scenario demuxer after the latch fires. -/
def c8DemuxAfter : FlvDemux :=
  { c8Demux with streaming_state := some { c8SS with got_all_streams := true } }

/-- C7 scenario demuxer after the emission (all 20 bytes consumed). -/
def c7DemuxAfter : FlvDemux := { c7Demux with adapter := [] }

/-- C7 scenario emitted buffer: the 4 payload bytes with pts 42 ms in ns. -/
def c7Buffer : Buffer := { data := [16, 17, 18, 19], pts := some 42000000 }

/-- C9 scenario demuxer: `NeedHeader` with only 3 bytes buffered. -/
def c9Demux : FlvDemux :=
  { state := .NeedHeader, adapter := [1, 2, 3], streaming_state := none }

end Flv

namespace Flv

/-- C10: `update_with_metadata` overwrites each covered field (bitrate for
audio; width, height, pixel aspect ratio, framerate, bitrate for video) with
exactly the metadata's value — including replacing a present value with absent
when the record omits the key — leaves every other field unchanged, and returns
`true` iff at least one covered field's value differed. -/
theorem claim_C10_update_with_metadata (af : AudioFormat) (vf : VideoFormat) (m : Metadata) :
    ((af.update_with_metadata m).1 = { af with bitrate := m.audio_bitrate } ∧
     ((af.update_with_metadata m).2 = true ↔ ¬(af.bitrate = m.audio_bitrate))) ∧
    ((vf.update_with_metadata m).1 =
       { vf with width := m.video_width, height := m.video_height,
                 pixel_aspect_ratio := m.video_pixel_aspect_ratio,
                 framerate := m.video_framerate, bitrate := m.video_bitrate } ∧
     ((vf.update_with_metadata m).2 = true ↔
       ¬(vf.width = m.video_width ∧ vf.height = m.video_height ∧
         vf.pixel_aspect_ratio = m.video_pixel_aspect_ratio ∧
         vf.framerate = m.video_framerate ∧ vf.bitrate = m.video_bitrate))) := by
  obtain ⟨fa, ra, wa, ca, ba, sa⟩ := af
  obtain ⟨fv, wv, hv, pv, rv, bv, sv⟩ := vf
  constructor
  · by_cases h : ba = m.audio_bitrate <;>
      simp_all [AudioFormat.update_with_metadata]
  · by_cases h1 : wv = m.video_width <;>
    by_cases h2 : hv = m.video_height <;>
    by_cases h3 : pv = m.video_pixel_aspect_ratio <;>
    by_cases h4 : rv = m.video_framerate <;>
    by_cases h5 : bv = m.video_bitrate <;>
      simp_all [VideoFormat.update_with_metadata]

/-- C2: a video tag for a published VP6 format (payload offset 1) with
`data_size = 1` and enough bytes buffered passes the `data_size == 0` check and
the `data_size < offset` check, and the subsequent take size
`data_size - 1 - offset` underflows below zero (wrapping to `2^32 - 1` in u32),
so the take requests a negative byte count and `handle_video_tag` panics
(models as `none`): the short-circuit checks guard `data_size == 0` but not
`data_size == 1` with a positive offset. -/
theorem claim_C2_vp6_data_size_one_underflows :
    c2TagHeader.data_size ≠ 0 ∧
    ¬(c2TagHeader.data_size < videoCodecOffset c2Video.format) ∧
    ((c2TagHeader.data_size : Int) - 1 - (videoCodecOffset c2Video.format : Int) < 0) ∧
    u32sub (c2TagHeader.data_size - 1) (videoCodecOffset c2Video.format) = 2 ^ 32 - 1 ∧
    handleVideoTag specParsers c2Demux c2TagHeader ⟨.Inter, .VP6⟩ = none := by
  refine ⟨by decide, by decide, by decide, by decide, by decide⟩

/-- `needHeaderLoop` with fewer than 9 buffered bytes stops immediately. -/
theorem needHeaderLoop_of_lt (p : Parsers) (a : List Nat) (h : a.length < 9) :
    needHeaderLoop p a = (a, none) := by
  rw [needHeaderLoop]
  simp [Nat.not_le.mpr h]

/-- `needHeaderLoop` on a successful 9-byte header parse flushes 9 bytes and
returns the header. -/
theorem needHeaderLoop_success (p : Parsers) (a : List Nat) (hdr : Header)
    (h9 : 9 ≤ a.length) (hp : p.header (a.take 9) = some hdr) :
    needHeaderLoop p a = (a.drop 9, some hdr) := by
  rw [needHeaderLoop]
  simp [h9, hp]

/-- `needHeaderLoop` on a failed 9-byte header parse flushes 1 byte and
retries. -/
theorem needHeaderLoop_fail (p : Parsers) (a : List Nat)
    (h9 : 9 ≤ a.length) (hp : p.header (a.take 9) = none) :
    needHeaderLoop p a = needHeaderLoop p (a.drop 1) := by
  conv_lhs => rw [needHeaderLoop]
  simp [h9, hp]

/-- When `needHeaderLoop` finds no header, fewer than 9 bytes remain. -/
theorem needHeaderLoop_none_short (p : Parsers) :
    ∀ (n : Nat) (a : List Nat), a.length ≤ n → (needHeaderLoop p a).2 = none →
      (needHeaderLoop p a).1.length < 9 := by
  intro n
  induction n with
  | zero =>
    intro a ha _
    rw [needHeaderLoop_of_lt p a (by omega)]
    simpa using by omega
  | succ n ih =>
    intro a ha h
    by_cases h9 : 9 ≤ a.length
    · cases hp : p.header (a.take 9) with
      | some hdr =>
        rw [needHeaderLoop_success p a hdr h9 hp] at h
        simp at h
      | none =>
        rw [needHeaderLoop_fail p a h9 hp] at h ⊢
        exact ih (a.drop 1) (by simp; omega) h
    · rw [needHeaderLoop_of_lt p a (by omega)] at h ⊢
      simpa using by omega

end Flv

namespace Flv

/-- C5: in the `NeedHeader` state, when at least 9 bytes are buffered and the
first 9 parse as an FLV header, exactly 9 bytes are flushed, the state becomes
`Skipping` with `skip_left = max(0, data_offset - 9)` and the header's
audio/video flags, and the call returns `Again`; when the 9 peeked bytes fail
to parse, exactly 1 byte is flushed and the search retries; when fewer than 9
bytes are buffered, the call returns `NeedMoreData`. -/
theorem claim_C5_need_header (p : Parsers) (d : FlvDemux) (hdr : Header)
    (hstate : d.state = .NeedHeader) :
    (9 ≤ d.adapter.length → p.header (d.adapter.take 9) = some hdr →
      updateState p d =
        some ({ d with adapter := d.adapter.drop 9,
                       state := .Skipping hdr.audio hdr.video (((hdr.offset : Int) - 9).toNat) },
              .Again)) ∧
    (9 ≤ d.adapter.length → p.header (d.adapter.take 9) = none →
      updateState p d = updateState p { d with adapter := d.adapter.drop 1 }) ∧
    (d.adapter.length < 9 →
      updateState p d = some (d, .NeedMoreData)) := by
  obtain ⟨st, a, sstate⟩ := d
  replace hstate : st = State.NeedHeader := hstate
  subst hstate
  refine ⟨?_, ?_, ?_⟩
  · intro h9 hp
    have hskip : (if hdr.offset < 9 then 0 else hdr.offset - 9) =
        ((hdr.offset : Int) - 9).toNat := by
      split <;> omega
    simp only [updateState, needHeaderLoop_success p a hdr h9 hp, hskip]
  · intro h9 hp
    simp only [updateState, needHeaderLoop_fail p a h9 hp]
  · intro hlt
    simp only [updateState, needHeaderLoop_of_lt p a hlt]

/-- Witness for C5: the concrete `"FLV" 01 05 …` header is accepted, 9 bytes
are flushed, and the state moves to `Skipping` with both flags set and
`skip_left = 0`. -/
theorem claim_C5_witness :
    updateState specParsers c5Demux =
      some ({ state := .Skipping true true 0, adapter := [], streaming_state := none },
            .Again) := by
  have h := (claim_C5_need_header specParsers c5Demux ⟨1, true, true, 9⟩ rfl).1
    (by decide) (by decide)
  simpa [c5Demux] using h

end Flv

namespace Flv

/-- C4: `AudioFormat`/`VideoFormat` equality ignores the `bitrate` field (two
formats compare equal iff all other fields match), so when the prospective
format built in the reconcile step differs from the published one only in
bitrate, the reconcile step emits neither `StreamAdded` nor `StreamChanged`
for that side. -/
theorem claim_C4_bitrate_ignored :
    (∀ a b : AudioFormat,
      a.peq b = true ↔
        (a.format = b.format ∧ a.rate = b.rate ∧ a.width = b.width ∧
         a.channels = b.channels ∧ a.aac_sequence_header = b.aac_sequence_header)) ∧
    (∀ a b : VideoFormat,
      a.peq b = true ↔
        (a.format = b.format ∧ a.width = b.width ∧ a.height = b.height ∧
         a.pixel_aspect_ratio = b.pixel_aspect_ratio ∧ a.framerate = b.framerate ∧
         a.avc_sequence_header = b.avc_sequence_header)) ∧
    (∀ (d : FlvDemux) (dh : AudioDataHeader) (ss : StreamingState) (a : AudioFormat)
       (d' : FlvDemux) (r : HandleBufferResult),
      d.streaming_state = some ss → ss.audio = some a →
      a.peq (AudioFormat.new dh ss.metadata ss.aac_sequence_header) = true →
      updateAudioStream d dh = some (d', r) →
      r.isStreamEvent = false) ∧
    (∀ (d : FlvDemux) (dh : VideoDataHeader) (ss : StreamingState) (v : VideoFormat)
       (d' : FlvDemux) (r : HandleBufferResult),
      d.streaming_state = some ss → ss.video = some v →
      v.peq (VideoFormat.new dh ss.metadata ss.avc_sequence_header) = true →
      updateVideoStream d dh = some (d', r) →
      r.isStreamEvent = false) := by
  refine ⟨?_, ?_, ?_, ?_⟩
  · intro a b
    simp [AudioFormat.peq, and_assoc]
  · intro a b
    simp [VideoFormat.peq, and_assoc]
  · intro d dh ss a d' r hss ha hpeq hupd
    rw [updateAudioStream, hss] at hupd
    simp only [ha, audioNe, hpeq, Bool.not_true, Bool.false_eq_true, if_false,
      updateAudioStreamTail] at hupd
    split at hupd <;>
      (obtain ⟨rfl, rfl⟩ := Prod.mk.injEq .. ▸ Option.some.injEq .. ▸ hupd) <;> rfl
  · intro d dh ss v d' r hss hv hpeq hupd
    rw [updateVideoStream, hss] at hupd
    simp only [hv, videoNe, hpeq, Bool.not_true, Bool.false_eq_true, if_false,
      updateVideoStreamTail] at hupd
    split at hupd <;>
      (obtain ⟨rfl, rfl⟩ := Prod.mk.injEq .. ▸ Option.some.injEq .. ▸ hupd) <;> rfl

/-- Witness for C4: a prospective MP3 format differing from the published one
only in bitrate yields an `Again` result, not a stream add/change event. -/
theorem claim_C4_witness : HandleBufferResult.isStreamEvent .Again = false :=
  claim_C4_bitrate_ignored.2.2.1 c4Demux mp3DataHeader c4SS c4Audio c4Demux .Again
    rfl rfl (by decide) (by decide)

end Flv

namespace Flv

/-- C6: for an audio tag whose data header announces AAC, with the full tag
available and the stream reconcile returning `Again`: if `data_size < 2` the
whole tag (15 + data_size bytes) is flushed and `Again` returned; if the AAC
packet type is `SequenceHeader`, exactly 17 bytes (15 + 1 + 1) are flushed,
`data_size - 2` bytes are taken and stored as `aac_sequence_header`, and
`Again` is returned (no buffer is emitted for that tag). -/
theorem claim_C6_aac_special_case (p : Parsers) (d d1 : FlvDemux) (th : TagHeader)
    (dh : AudioDataHeader) (ss1 : StreamingState)
    (hupd : updateAudioStream d dh = some (d1, .Again))
    (haac : dh.sound_format = .AAC)
    (havail : 15 + th.data_size ≤ d1.adapter.length) :
    (th.data_size < 2 →
      handleAudioTag p d th dh =
        some ({ d1 with adapter := d1.adapter.drop (15 + th.data_size) }, .Again)) ∧
    (2 ≤ th.data_size →
      p.aac_audio_packet_header ((d1.adapter.take 17).drop 16) = some ⟨.SequenceHeader⟩ →
      d1.streaming_state = some ss1 →
      handleAudioTag p d th dh =
        some ({ d1 with
                  adapter := (d1.adapter.drop 17).drop (th.data_size - 2),
                  streaming_state :=
                    some { ss1 with
                             aac_sequence_header :=
                               some { data := (d1.adapter.drop 17).take (th.data_size - 2) } } },
              .Again)) := by
  have h1 : ¬(d1.adapter.length < 15 + th.data_size) := by omega
  constructor
  · intro hlt
    have h2 : th.data_size < 1 + 1 := by omega
    simp [handleAudioTag, hupd, h1, haac, h2, aflush, havail]
  · intro h2 hpkt hss1
    have h17 : 17 ≤ d1.adapter.length := by omega
    have h4 : ¬(th.data_size < 1 + 1) := by omega
    have h5 : th.data_size - 1 - 1 ≤ (d1.adapter.drop 17).length := by
      simp only [List.length_drop]
      omega
    have h6 : th.data_size ≤ d1.adapter.length - 17 + 1 + 1 := by omega
    have h7 : th.data_size - 1 - 1 = th.data_size - 2 := by omega
    simp [handleAudioTag, hupd, h1, haac, h4, apeek, h17, hpkt, aflush, atake, hss1, h5,
      h6, h7]

/-- Witness for C6: an AAC sequence-header tag with `data_size = 7` flushes 17
bytes, stores the 5-byte setup blob, and returns `Again`. -/
theorem claim_C6_witness :
    handleAudioTag specParsers c6Demux c6TagHeader aacDataHeader =
      some ({ c6Demux with
                adapter := [],
                streaming_state :=
                  some { c6SS with
                           aac_sequence_header := some { data := [1, 2, 3, 4, 5] } } },
            .Again) := by
  have h := (claim_C6_aac_special_case specParsers c6Demux c6Demux c6TagHeader
    aacDataHeader c6SS (by decide) rfl (by decide)).2 (by decide) (by decide) rfl
  rw [h]
  decide

end Flv

namespace Flv

/-- For a u32 timestamp and a 24-bit signed composition time, the wrap-guarded
pts computation equals the clamped sum `max(0, t + c)` in milliseconds. -/
theorem videoPtsMs_spec (t : Nat) (c : Int) (ht : t < 2 ^ 32)
    (hclo : -(2 ^ 23) ≤ c) (hchi : c < 2 ^ 23) :
    videoPtsMs t c = if 0 ≤ c ∨ -c ≤ (t : Int) then ((t : Int) + c).toNat else 0 := by
  unfold videoPtsMs u32OfInt u64OfInt
  split_ifs with h1 h2 h2 <;> omega

end Flv

namespace Flv

/-- C1: for an H.264 video NALU tag with u32 timestamp `t` ms and 24-bit signed
composition time `c` ms that results in an emitted `BufferForStream`, the
buffer's dts is `t * 10^6` nanoseconds and its pts is `(t + c) * 10^6`
nanoseconds when `c ≥ 0` or `t ≥ -c`, and `0` otherwise. -/
theorem claim_C1_h264_nalu_timestamps (p : Parsers) (d d1 : FlvDemux) (th : TagHeader)
    (dh : VideoDataHeader) (ss1 : StreamingState) (v : VideoFormat) (c : Int)
    (hupd : updateVideoStream d dh = some (d1, .Again))
    (hh264 : dh.codec_id = .H264)
    (hss1 : d1.streaming_state = some ss1)
    (hv : ss1.video = some v)
    (hvfmt : v.format = .H264)
    (hpkt : p.avc_video_packet_header ((d1.adapter.take 20).drop 16) = some ⟨.NALU, c⟩)
    (havail : 15 + th.data_size ≤ d1.adapter.length)
    (hds : 5 ≤ th.data_size) (hds24 : th.data_size < 2 ^ 24)
    (ht : th.timestamp < 2 ^ 32)
    (hclo : -(2 ^ 23) ≤ c) (hchi : c < 2 ^ 23) :
    ∃ (d' : FlvDemux) (buf : Buffer),
      handleVideoTag p d th dh = some (d', .BufferForStream VIDEO_STREAM_ID buf) ∧
      buf.dts = some (th.timestamp * 1000000) ∧
      buf.pts = some ((if 0 ≤ c ∨ -c ≤ (th.timestamp : Int)
                       then ((th.timestamp : Int) + c).toNat else 0) * 1000000) := by
  have h20 : 20 ≤ d1.adapter.length := by omega
  have h16 : 16 ≤ d1.adapter.length := by omega
  have h1 : ¬(d1.adapter.length < 15 + th.data_size) := by omega
  have h2 : ¬(th.data_size < 1 + 4) := by omega
  have hds0 : ¬(th.data_size = 0) := by omega
  have hlt4 : ¬(th.data_size < 4) := by omega
  have hsub : u32sub (th.data_size - 1) 4 = th.data_size - 5 := by
    unfold u32sub
    omega
  have hflush4 : 4 ≤ d1.adapter.length - 16 := by omega
  have htake : th.data_size - 5 ≤ d1.adapter.length - 16 - 4 := by omega
  simp only [handleVideoTag, hupd, h1, if_false, hh264, if_true, h2, apeek, h20,
    hpkt, handleVideoTagRest, hss1, hv, aflush, h16, List.length_drop, hflush4,
    videoCodecOffset, hvfmt, hds0, hlt4, hsub, atake, htake, if_pos, if_neg,
    Nat.lt_irrefl, u64wrap]
  have htake2 : th.data_size - 5 ≤ (List.drop 4 (List.drop 16 d1.adapter)).length := by
    simp only [List.length_drop]
    omega
  simp only [if_pos (by norm_num : (0 : Nat) < 4), if_pos htake2]
  refine ⟨_, _, rfl, ?_, ?_⟩
  · simp only [Option.some.injEq]
    omega
  · rw [videoPtsMs_spec th.timestamp c ht hclo hchi]
    simp only [Option.some.injEq]
    split_ifs with hcond <;> omega

end Flv

namespace Flv

/-- Witness for C1: an H.264 NALU tag with timestamp 100 ms and composition
time -40 ms yields a buffer with dts 100·10⁶ ns and pts 60·10⁶ ns. -/
theorem claim_C1_witness :
    ∃ (d' : FlvDemux) (buf : Buffer),
      handleVideoTag specParsers c1Demux c1TagHeader h264DataHeader =
        some (d', .BufferForStream VIDEO_STREAM_ID buf) ∧
      buf.dts = some (100 * 1000000) ∧
      buf.pts = some (60 * 1000000) := by
  obtain ⟨d', buf, h1, h2, h3⟩ := claim_C1_h264_nalu_timestamps specParsers c1Demux c1Demux
    c1TagHeader h264DataHeader c1SS c1Video (-40)
    (by decide) rfl rfl rfl rfl (by decide) (by decide) (by decide) (by decide)
    (by decide) (by decide) (by decide)
  exact ⟨d', buf, h1, h2, by rw [h3]; decide⟩

end Flv

namespace Flv

/-- A successful `flush(n)` requires `n` available bytes and drops them. -/
theorem aflush_some {n : Nat} {a b : List Nat} (h : aflush n a = some b) :
    n ≤ a.length ∧ b = a.drop n := by
  unfold aflush at h
  split at h <;> simp_all

/-- A successful `get_buffer(n)` requires `n` available bytes and splits them
off. -/
theorem atake_some {n : Nat} {a : List Nat} {x : List Nat × List Nat}
    (h : atake n a = some x) :
    n ≤ a.length ∧ x.1 = a.take n ∧ x.2 = a.drop n := by
  unfold atake at h
  split at h
  · injection h with h
    subst h
    exact ⟨by assumption, rfl, rfl⟩
  · exact absurd h (by simp)

/-- `update_audio_stream` never emits a buffer or `NeedMoreData`, and leaves
the adapter and top-level state untouched. -/
theorem updateAudioStream_shape (d : FlvDemux) (dh : AudioDataHeader) (d' : FlvDemux)
    (r : HandleBufferResult) (h : updateAudioStream d dh = some (d', r)) :
    r.isBuffer = false ∧ r ≠ .NeedMoreData ∧ d'.adapter = d.adapter ∧ d'.state = d.state := by
  rw [updateAudioStream] at h
  rcases hss : d.streaming_state with _ | ss <;> rw [hss] at h
  · exact absurd h (by simp)
  · simp only [updateAudioStreamTail] at h
    repeat' split at h
    all_goals
      simp only [Option.some.injEq, Prod.mk.injEq] at h
    all_goals obtain ⟨rfl, rfl⟩ := h
    all_goals exact ⟨rfl, by simp, rfl, rfl⟩

/-- `update_video_stream` never emits a buffer or `NeedMoreData`, and leaves
the adapter and top-level state untouched. -/
theorem updateVideoStream_shape (d : FlvDemux) (dh : VideoDataHeader) (d' : FlvDemux)
    (r : HandleBufferResult) (h : updateVideoStream d dh = some (d', r)) :
    r.isBuffer = false ∧ r ≠ .NeedMoreData ∧ d'.adapter = d.adapter ∧ d'.state = d.state := by
  rw [updateVideoStream] at h
  rcases hss : d.streaming_state with _ | ss <;> rw [hss] at h
  · exact absurd h (by simp)
  · simp only [updateVideoStreamTail] at h
    repeat' split at h
    all_goals
      simp only [Option.some.injEq, Prod.mk.injEq] at h
    all_goals obtain ⟨rfl, rfl⟩ := h
    all_goals exact ⟨rfl, by simp, rfl, rfl⟩

end Flv

namespace Flv


/-- Every audio codec's payload offset is at most 1. -/
theorem audioCodecOffset_le_one (f : SoundFormat) : audioCodecOffset f ≤ 1 := by
  cases f <;> decide

/-- Every video codec's payload offset is at most 4. -/
theorem videoCodecOffset_le_four (f : CodecId) : videoCodecOffset f ≤ 4 := by
  cases f <;> decide

/-- Inversion of the generic audio payload extraction: when it emits a buffer,
the published format's offset satisfies `1 + offset ≤ data_size` and the buffer
holds exactly `data_size - 1 - offset` bytes. -/
theorem handleAudioTagRest_buffer (d : FlvDemux) (th : TagHeader) (d' : FlvDemux)
    (i : Nat) (buf : Buffer)
    (hds24 : th.data_size < 2 ^ 24) (hlen : d.adapter.length < 2 ^ 32)
    (h : handleAudioTagRest d th = some (d', .BufferForStream i buf)) :
    ∃ ss f, d.streaming_state = some ss ∧ ss.audio = some f ∧
      d'.streaming_state = some ss ∧
      1 + audioCodecOffset f.format ≤ th.data_size ∧
      buf.data.length = th.data_size - (1 + audioCodecOffset f.format) := by
  rw [handleAudioTagRest] at h
  rcases hss : d.streaming_state with _ | ss <;> rw [hss] at h
  · exact absurd h (by simp)
  dsimp only at h
  rcases ha : ss.audio with _ | f <;> rw [ha] at h
  · dsimp only at h
    split at h <;> exact absurd h (by simp)
  dsimp only at h
  rcases hfl : aflush 16 d.adapter with _ | a1 <;> rw [hfl] at h
  · exact absurd h (by simp)
  dsimp only at h
  obtain ⟨h16, rfl⟩ := aflush_some hfl
  by_cases h0 : th.data_size = 0
  · rw [if_pos h0] at h
    exact absurd h (by simp)
  rw [if_neg h0] at h
  by_cases hlt : th.data_size < audioCodecOffset f.format
  · rw [if_pos hlt] at h
    split at h <;> exact absurd h (by simp)
  rw [if_neg hlt] at h
  rcases hfl2 : (if 0 < audioCodecOffset f.format
      then aflush (audioCodecOffset f.format) (d.adapter.drop 16)
      else some (d.adapter.drop 16)) with _ | a2 <;> rw [hfl2] at h
  · exact absurd h (by simp)
  dsimp only at h
  have ha2 : audioCodecOffset f.format ≤ (d.adapter.drop 16).length ∧
      a2 = (d.adapter.drop 16).drop (audioCodecOffset f.format) := by
    by_cases hoff : 0 < audioCodecOffset f.format
    · rw [if_pos hoff] at hfl2
      exact aflush_some hfl2
    · rw [if_neg hoff] at hfl2
      injection hfl2 with hfl2
      subst hfl2
      have hz : audioCodecOffset f.format = 0 := by omega
      simp [hz]
  obtain ⟨hoffle, rfl⟩ := ha2
  rcases htk : atake (u32sub (th.data_size - 1) (audioCodecOffset f.format))
      ((d.adapter.drop 16).drop (audioCodecOffset f.format)) with _ | ⟨payload, a3⟩ <;>
    rw [htk] at h
  · exact absurd h (by simp)
  dsimp only at h
  have hatk := atake_some htk
  simp only at hatk
  obtain ⟨htk1, htk2, htk3⟩ := hatk
  simp only [Option.some.injEq, Prod.mk.injEq, HandleBufferResult.BufferForStream.injEq] at h
  obtain ⟨rfl, rfl, rfl⟩ := h
  have hoff1 := audioCodecOffset_le_one f.format
  have hlen2 : ((d.adapter.drop 16).drop (audioCodecOffset f.format)).length =
      d.adapter.length - 16 - audioCodecOffset f.format := by
    simp only [List.length_drop]
  have hge : 1 + audioCodecOffset f.format ≤ th.data_size := by
    by_contra hcon
    have hds : th.data_size = audioCodecOffset f.format := by omega
    have hbig : u32sub (th.data_size - 1) (audioCodecOffset f.format) = 2 ^ 32 - 1 := by
      unfold u32sub
      omega
    omega
  have hval : u32sub (th.data_size - 1) (audioCodecOffset f.format) =
      th.data_size - 1 - audioCodecOffset f.format := by
    unfold u32sub
    omega
  refine ⟨ss, f, rfl, ha, rfl, hge, ?_⟩
  rw [htk2]
  simp only [List.length_take]
  omega

/-- Inversion of the generic video payload extraction: when it emits a buffer,
the published format's offset satisfies `1 + offset ≤ data_size` and the buffer
holds exactly `data_size - 1 - offset` bytes. -/
theorem handleVideoTagRest_buffer (d : FlvDemux) (th : TagHeader)
    (dh : VideoDataHeader) (cts : Int) (d' : FlvDemux) (i : Nat) (buf : Buffer)
    (hds24 : th.data_size < 2 ^ 24) (hlen : d.adapter.length < 2 ^ 32)
    (h : handleVideoTagRest d th dh cts = some (d', .BufferForStream i buf)) :
    ∃ ss f, d.streaming_state = some ss ∧ ss.video = some f ∧
      d'.streaming_state = some ss ∧
      1 + videoCodecOffset f.format ≤ th.data_size ∧
      buf.data.length = th.data_size - (1 + videoCodecOffset f.format) := by
  rw [handleVideoTagRest] at h
  rcases hss : d.streaming_state with _ | ss <;> rw [hss] at h
  · exact absurd h (by simp)
  dsimp only at h
  rcases hv : ss.video with _ | f <;> rw [hv] at h
  · dsimp only at h
    split at h <;> exact absurd h (by simp)
  dsimp only at h
  rcases hfl : aflush 16 d.adapter with _ | a1 <;> rw [hfl] at h
  · exact absurd h (by simp)
  dsimp only at h
  obtain ⟨h16, rfl⟩ := aflush_some hfl
  by_cases h0 : th.data_size = 0
  · rw [if_pos h0] at h
    exact absurd h (by simp)
  rw [if_neg h0] at h
  by_cases hlt : th.data_size < videoCodecOffset f.format
  · rw [if_pos hlt] at h
    split at h <;> exact absurd h (by simp)
  rw [if_neg hlt] at h
  rcases hfl2 : (if 0 < videoCodecOffset f.format
      then aflush (videoCodecOffset f.format) (d.adapter.drop 16)
      else some (d.adapter.drop 16)) with _ | a2 <;> rw [hfl2] at h
  · exact absurd h (by simp)
  dsimp only at h
  have ha2 : videoCodecOffset f.format ≤ (d.adapter.drop 16).length ∧
      a2 = (d.adapter.drop 16).drop (videoCodecOffset f.format) := by
    by_cases hoff : 0 < videoCodecOffset f.format
    · rw [if_pos hoff] at hfl2
      exact aflush_some hfl2
    · rw [if_neg hoff] at hfl2
      injection hfl2 with hfl2
      subst hfl2
      have hz : videoCodecOffset f.format = 0 := by omega
      simp [hz]
  obtain ⟨hoffle, rfl⟩ := ha2
  rcases htk : atake (u32sub (th.data_size - 1) (videoCodecOffset f.format))
      ((d.adapter.drop 16).drop (videoCodecOffset f.format)) with _ | ⟨payload, a3⟩ <;>
    rw [htk] at h
  · exact absurd h (by simp)
  dsimp only at h
  have hatk := atake_some htk
  simp only at hatk
  obtain ⟨htk1, htk2, htk3⟩ := hatk
  simp only [Option.some.injEq, Prod.mk.injEq, HandleBufferResult.BufferForStream.injEq] at h
  obtain ⟨rfl, rfl, rfl⟩ := h
  have hoff4 := videoCodecOffset_le_four f.format
  have hlen2 : ((d.adapter.drop 16).drop (videoCodecOffset f.format)).length =
      d.adapter.length - 16 - videoCodecOffset f.format := by
    simp only [List.length_drop]
  have hge : 1 + videoCodecOffset f.format ≤ th.data_size := by
    by_contra hcon
    have hds : th.data_size = videoCodecOffset f.format := by omega
    have hbig : 2 ^ 32 - 5 ≤ u32sub (th.data_size - 1) (videoCodecOffset f.format) := by
      unfold u32sub
      omega
    omega
  have hval : u32sub (th.data_size - 1) (videoCodecOffset f.format) =
      th.data_size - 1 - videoCodecOffset f.format := by
    unfold u32sub
    omega
  refine ⟨ss, f, rfl, hv, rfl, hge, ?_⟩
  rw [htk2]
  simp only [List.length_take]
  omega

/-- C7: every emitted `BufferForStream` holds `data_size - 1 - offset` bytes,
where the payload offset is 1 for AAC audio (2 bytes dropped in total), 4 for
H.264 video (5 dropped), 1 for VP6/VP6A (2 dropped) and 0 for every other
audio or video codec (1 dropped). -/
theorem claim_C7_payload_offsets (p : Parsers) (d : FlvDemux) (th : TagHeader) :
    (audioCodecOffset .AAC = 1 ∧ ∀ f, f ≠ .AAC → audioCodecOffset f = 0) ∧
    (videoCodecOffset .H264 = 4 ∧ videoCodecOffset .VP6 = 1 ∧ videoCodecOffset .VP6A = 1 ∧
     ∀ cdc, cdc ≠ .VP6 → cdc ≠ .VP6A → cdc ≠ .H264 → videoCodecOffset cdc = 0) ∧
    (∀ (dh : AudioDataHeader) (d' : FlvDemux) (i : Nat) (buf : Buffer),
      d.adapter.length < 2 ^ 32 → th.data_size < 2 ^ 24 →
      handleAudioTag p d th dh = some (d', .BufferForStream i buf) →
      ∃ ss f, d'.streaming_state = some ss ∧ ss.audio = some f ∧
        1 + audioCodecOffset f.format ≤ th.data_size ∧
        buf.data.length = th.data_size - (1 + audioCodecOffset f.format)) ∧
    (∀ (dh : VideoDataHeader) (d' : FlvDemux) (i : Nat) (buf : Buffer),
      d.adapter.length < 2 ^ 32 → th.data_size < 2 ^ 24 →
      handleVideoTag p d th dh = some (d', .BufferForStream i buf) →
      ∃ ss f, d'.streaming_state = some ss ∧ ss.video = some f ∧
        1 + videoCodecOffset f.format ≤ th.data_size ∧
        buf.data.length = th.data_size - (1 + videoCodecOffset f.format)) := by
  refine ⟨⟨rfl, ?_⟩, ⟨rfl, rfl, rfl, ?_⟩, ?_, ?_⟩
  · intro f hf
    cases f <;> first | rfl | exact absurd rfl hf
  · intro cdc h1 h2 h3
    cases cdc <;> first | rfl | exact absurd rfl h1 | exact absurd rfl h2 | exact absurd rfl h3
  · intro dh d' i buf hlen hds24 h
    rw [handleAudioTag] at h
    rcases hu : updateAudioStream d dh with _ | ⟨d1, res⟩ <;> rw [hu] at h
    · exact absurd h (by simp)
    dsimp only at h
    obtain ⟨hshape1, _, hadp, _⟩ := updateAudioStream_shape d dh d1 res hu
    have hlen1 : d1.adapter.length < 2 ^ 32 := by rw [hadp]; exact hlen
    cases res
    case NeedMoreData => exact absurd h (by simp)
    case StreamAdded => exact absurd h (by simp)
    case StreamChanged => exact absurd h (by simp)
    case StreamsChanged => exact absurd h (by simp)
    case HaveAllStreams => exact absurd h (by simp)
    case BufferForStream => simp [HandleBufferResult.isBuffer] at hshape1
    case Again =>
      dsimp only at h
      by_cases hav : d1.adapter.length < 15 + th.data_size
      · rw [if_pos hav] at h
        exact absurd h (by simp)
      rw [if_neg hav] at h
      by_cases haac : dh.sound_format = .AAC
      · rw [if_pos haac] at h
        by_cases hds2 : th.data_size < 1 + 1
        · rw [if_pos hds2] at h
          split at h <;> exact absurd h (by simp)
        rw [if_neg hds2] at h
        rcases hpk : apeek 17 d1.adapter with _ | data <;> rw [hpk] at h
        · exact absurd h (by simp)
        dsimp only at h
        rcases hph : p.aac_audio_packet_header (data.drop 16) with _ | hdr <;> rw [hph] at h
        · exact absurd h (by simp)
        dsimp only at h
        obtain ⟨pt⟩ := hdr
        cases pt
        · dsimp only at h
          repeat' split at h
          all_goals exact absurd h (by simp)
        · dsimp only at h
          obtain ⟨ss, f, _, hf, hss', hge, hl⟩ :=
            handleAudioTagRest_buffer d1 th d' i buf hds24 hlen1 h
          exact ⟨ss, f, hss', hf, hge, hl⟩
      · rw [if_neg haac] at h
        obtain ⟨ss, f, _, hf, hss', hge, hl⟩ :=
          handleAudioTagRest_buffer d1 th d' i buf hds24 hlen1 h
        exact ⟨ss, f, hss', hf, hge, hl⟩
  · intro dh d' i buf hlen hds24 h
    rw [handleVideoTag] at h
    rcases hu : updateVideoStream d dh with _ | ⟨d1, res⟩ <;> rw [hu] at h
    · exact absurd h (by simp)
    dsimp only at h
    obtain ⟨hshape1, _, hadp, _⟩ := updateVideoStream_shape d dh d1 res hu
    have hlen1 : d1.adapter.length < 2 ^ 32 := by rw [hadp]; exact hlen
    cases res
    case NeedMoreData => exact absurd h (by simp)
    case StreamAdded => exact absurd h (by simp)
    case StreamChanged => exact absurd h (by simp)
    case StreamsChanged => exact absurd h (by simp)
    case HaveAllStreams => exact absurd h (by simp)
    case BufferForStream => simp [HandleBufferResult.isBuffer] at hshape1
    case Again =>
      dsimp only at h
      by_cases hav : d1.adapter.length < 15 + th.data_size
      · rw [if_pos hav] at h
        exact absurd h (by simp)
      rw [if_neg hav] at h
      by_cases h264 : dh.codec_id = .H264
      · rw [if_pos h264] at h
        by_cases hds5 : th.data_size < 1 + 4
        · rw [if_pos hds5] at h
          split at h <;> exact absurd h (by simp)
        rw [if_neg hds5] at h
        rcases hpk : apeek 20 d1.adapter with _ | data <;> rw [hpk] at h
        · exact absurd h (by simp)
        dsimp only at h
        rcases hph : p.avc_video_packet_header (data.drop 16) with _ | hdr <;> rw [hph] at h
        · exact absurd h (by simp)
        dsimp only at h
        obtain ⟨pt, cts⟩ := hdr
        cases pt
        · dsimp only at h
          repeat' split at h
          all_goals exact absurd h (by simp)
        · dsimp only at h
          obtain ⟨ss, f, _, hf, hss', hge, hl⟩ :=
            handleVideoTagRest_buffer d1 th dh cts d' i buf hds24 hlen1 h
          exact ⟨ss, f, hss', hf, hge, hl⟩
        · dsimp only at h
          split at h <;> exact absurd h (by simp)
      · rw [if_neg h264] at h
        obtain ⟨ss, f, _, hf, hss', hge, hl⟩ :=
          handleVideoTagRest_buffer d1 th dh 0 d' i buf hds24 hlen1 h
        exact ⟨ss, f, hss', hf, hge, hl⟩

/-- Witness for C7: an MP3 audio tag with `data_size = 5` emits a 4-byte buffer
(one codec byte dropped). -/
theorem claim_C7_witness :
    ∃ ss f, c7DemuxAfter.streaming_state = some ss ∧ ss.audio = some f ∧
      1 + audioCodecOffset f.format ≤ c7TagHeader.data_size ∧
      c7Buffer.data.length = c7TagHeader.data_size - (1 + audioCodecOffset f.format) :=
  (claim_C7_payload_offsets specParsers c7Demux c7TagHeader).2.2.1 mp3DataHeader
    c7DemuxAfter AUDIO_STREAM_ID c7Buffer (by decide) (by decide) (by decide)

/-- `update_audio_stream` latch characterization: the resulting flag is the old
flag OR'd with whether `HaveAllStreams` was returned, and `HaveAllStreams` is
returned only from an unlatched state with audio published and video published
or not expected. -/
theorem updateAudioStream_latch (d : FlvDemux) (dh : AudioDataHeader) (d' : FlvDemux)
    (r : HandleBufferResult) (ss : StreamingState)
    (h : updateAudioStream d dh = some (d', r)) (hss : d.streaming_state = some ss) :
    ∃ ss', d'.streaming_state = some ss' ∧
      ss'.got_all_streams = (ss.got_all_streams || decide (r = .HaveAllStreams)) ∧
      (r = .HaveAllStreams → ss.got_all_streams = false ∧ ss'.audio.isSome = true ∧
        (ss'.expect_video = true → ss'.video.isSome = true)) := by
  rw [updateAudioStream, hss] at h
  dsimp only at h
  split at h
  · split at h
    · split at h <;>
        (simp only [Option.some.injEq, Prod.mk.injEq] at h
         obtain ⟨rfl, rfl⟩ := h
         exact ⟨_, rfl, by simp, by simp⟩)
    · rw [updateAudioStreamTail] at h
      split at h
      · rename_i hcond
        simp only [StreamingState.audio] at hcond
        simp at hcond
      · simp only [Option.some.injEq, Prod.mk.injEq] at h
        obtain ⟨rfl, rfl⟩ := h
        exact ⟨_, rfl, by simp, by simp⟩
  · rw [updateAudioStreamTail] at h
    split at h
    · rename_i hcond
      simp only [Bool.and_eq_true, Bool.not_eq_eq_eq_not, Bool.not_true,
        Bool.or_eq_true] at hcond
      simp only [Option.some.injEq, Prod.mk.injEq] at h
      obtain ⟨rfl, rfl⟩ := h
      refine ⟨_, rfl, by simp, ?_⟩
      intro _
      refine ⟨by simpa using hcond.1.1, by simpa using hcond.1.2, ?_⟩
      intro hev
      rcases hcond.2 with ⟨_, hvs⟩ | hnev
      · simpa using hvs
      · exact absurd (show ss.expect_video = true from hev) (by simp [hnev])
    · simp only [Option.some.injEq, Prod.mk.injEq] at h
      obtain ⟨rfl, rfl⟩ := h
      exact ⟨_, rfl, by simp, by simp⟩

/-- `update_video_stream` latch characterization, mirror of the audio one. -/
theorem updateVideoStream_latch (d : FlvDemux) (dh : VideoDataHeader) (d' : FlvDemux)
    (r : HandleBufferResult) (ss : StreamingState)
    (h : updateVideoStream d dh = some (d', r)) (hss : d.streaming_state = some ss) :
    ∃ ss', d'.streaming_state = some ss' ∧
      ss'.got_all_streams = (ss.got_all_streams || decide (r = .HaveAllStreams)) ∧
      (r = .HaveAllStreams → ss.got_all_streams = false ∧ ss'.video.isSome = true ∧
        (ss'.expect_audio = true → ss'.audio.isSome = true)) := by
  rw [updateVideoStream, hss] at h
  dsimp only at h
  split at h
  · split at h
    · split at h <;>
        (simp only [Option.some.injEq, Prod.mk.injEq] at h
         obtain ⟨rfl, rfl⟩ := h
         exact ⟨_, rfl, by simp, by simp⟩)
    · rw [updateVideoStreamTail] at h
      split at h
      · rename_i hcond
        simp only [StreamingState.video] at hcond
        simp at hcond
      · simp only [Option.some.injEq, Prod.mk.injEq] at h
        obtain ⟨rfl, rfl⟩ := h
        exact ⟨_, rfl, by simp, by simp⟩
  · rw [updateVideoStreamTail] at h
    split at h
    · rename_i hcond
      simp only [Bool.and_eq_true, Bool.not_eq_eq_eq_not, Bool.not_true,
        Bool.or_eq_true] at hcond
      simp only [Option.some.injEq, Prod.mk.injEq] at h
      obtain ⟨rfl, rfl⟩ := h
      refine ⟨_, rfl, by simp, ?_⟩
      intro _
      refine ⟨by simpa using hcond.1.1, by simpa using hcond.1.2, ?_⟩
      intro hev
      rcases hcond.2 with ⟨_, hvs⟩ | hnev
      · simpa using hvs
      · exact absurd (show ss.expect_audio = true from hev) (by simp [hnev])
    · simp only [Option.some.injEq, Prod.mk.injEq] at h
      obtain ⟨rfl, rfl⟩ := h
      exact ⟨_, rfl, by simp, by simp⟩

/-- The generic audio payload extraction changes only the adapter. -/
theorem handleAudioTagRest_ss (d : FlvDemux) (th : TagHeader) (d' : FlvDemux)
    (r : HandleBufferResult) (h : handleAudioTagRest d th = some (d', r)) :
    d'.streaming_state = d.streaming_state ∧ d'.state = d.state ∧ r ≠ .NeedMoreData := by
  rw [handleAudioTagRest] at h
  dsimp only at h
  repeat' split at h
  all_goals simp only [Option.some.injEq, Prod.mk.injEq, reduceCtorEq] at h
  all_goals obtain ⟨rfl, rfl⟩ := h
  all_goals exact ⟨rfl, rfl, by simp⟩

/-- The generic video payload extraction changes only the adapter. -/
theorem handleVideoTagRest_ss (d : FlvDemux) (th : TagHeader) (dh : VideoDataHeader)
    (cts : Int) (d' : FlvDemux) (r : HandleBufferResult)
    (h : handleVideoTagRest d th dh cts = some (d', r)) :
    d'.streaming_state = d.streaming_state ∧ d'.state = d.state ∧ r ≠ .NeedMoreData := by
  rw [handleVideoTagRest] at h
  dsimp only at h
  repeat' split at h
  all_goals simp only [Option.some.injEq, Prod.mk.injEq, reduceCtorEq] at h
  all_goals obtain ⟨rfl, rfl⟩ := h
  all_goals exact ⟨rfl, rfl, by simp⟩

/-- `handle_script_tag` never resets a latched `got_all_streams`. -/
theorem handleScriptTag_got (p : Parsers) (d : FlvDemux) (th : TagHeader) (d' : FlvDemux)
    (r : HandleBufferResult) (ss : StreamingState)
    (h : handleScriptTag p d th = some (d', r)) (hss : d.streaming_state = some ss)
    (hg : ss.got_all_streams = true) :
    ∃ ss', d'.streaming_state = some ss' ∧ ss'.got_all_streams = true := by
  rw [handleScriptTag] at h
  dsimp only at h
  repeat' split at h
  all_goals simp only [Option.some.injEq, Prod.mk.injEq, reduceCtorEq] at h
  all_goals obtain ⟨rfl, rfl⟩ := h
  all_goals first
    | exact ⟨ss, hss, hg⟩
    | (refine ⟨_, rfl, ?_⟩; simp_all)

/-- `handle_audio_tag` never resets a latched `got_all_streams`. -/
theorem handleAudioTag_got (p : Parsers) (d : FlvDemux) (th : TagHeader)
    (dh : AudioDataHeader) (d' : FlvDemux) (r : HandleBufferResult) (ss : StreamingState)
    (h : handleAudioTag p d th dh = some (d', r)) (hss : d.streaming_state = some ss)
    (hg : ss.got_all_streams = true) :
    ∃ ss', d'.streaming_state = some ss' ∧ ss'.got_all_streams = true := by
  rw [handleAudioTag] at h
  rcases hu : updateAudioStream d dh with _ | ⟨d1, res⟩ <;> rw [hu] at h
  · exact absurd h (by simp)
  dsimp only at h
  obtain ⟨ss1, hss1, hgot1, _⟩ := updateAudioStream_latch d dh d1 res ss hu hss
  have hg1 : ss1.got_all_streams = true := by
    rw [hgot1, hg]
    simp
  cases res
  case Again =>
    dsimp only at h
    by_cases hav : d1.adapter.length < 15 + th.data_size
    · rw [if_pos hav] at h
      simp only [Option.some.injEq, Prod.mk.injEq] at h
      obtain ⟨rfl, rfl⟩ := h
      exact ⟨ss1, hss1, hg1⟩
    rw [if_neg hav] at h
    by_cases haac : dh.sound_format = .AAC
    swap
    · rw [if_neg haac] at h
      obtain ⟨heq, _, _⟩ := handleAudioTagRest_ss d1 th d' r h
      exact ⟨ss1, heq ▸ hss1, hg1⟩
    rw [if_pos haac] at h
    by_cases hds2 : th.data_size < 1 + 1
    · rw [if_pos hds2] at h
      rcases hfl : aflush (15 + th.data_size) d1.adapter with _ | a <;> rw [hfl] at h
      · exact absurd h (by simp)
      dsimp only at h
      simp only [Option.some.injEq, Prod.mk.injEq] at h
      obtain ⟨rfl, rfl⟩ := h
      exact ⟨ss1, hss1, hg1⟩
    rw [if_neg hds2] at h
    rcases hpk : apeek 17 d1.adapter with _ | data <;> rw [hpk] at h
    · exact absurd h (by simp)
    dsimp only at h
    rcases hph : p.aac_audio_packet_header (data.drop 16) with _ | hdr <;> rw [hph] at h
    · exact absurd h (by simp)
    dsimp only at h
    obtain ⟨pt⟩ := hdr
    cases pt
    · dsimp only at h
      rcases hfl : aflush (15 + 1 + 1) d1.adapter with _ | a <;> rw [hfl] at h
      · exact absurd h (by simp)
      dsimp only at h
      rcases htk : atake (th.data_size - 1 - 1) a with _ | ⟨payload, a2⟩ <;> rw [htk] at h
      · exact absurd h (by simp)
      dsimp only at h
      rw [hss1] at h
      dsimp only at h
      simp only [Option.some.injEq, Prod.mk.injEq] at h
      obtain ⟨rfl, rfl⟩ := h
      exact ⟨_, rfl, hg1⟩
    · dsimp only at h
      obtain ⟨heq, _, _⟩ := handleAudioTagRest_ss d1 th d' r h
      exact ⟨ss1, heq ▸ hss1, hg1⟩
  all_goals
    dsimp only at h
    simp only [Option.some.injEq, Prod.mk.injEq] at h
    obtain ⟨rfl, rfl⟩ := h
    exact ⟨ss1, hss1, hg1⟩

/-- `handle_video_tag` never resets a latched `got_all_streams`. -/
theorem handleVideoTag_got (p : Parsers) (d : FlvDemux) (th : TagHeader)
    (dh : VideoDataHeader) (d' : FlvDemux) (r : HandleBufferResult) (ss : StreamingState)
    (h : handleVideoTag p d th dh = some (d', r)) (hss : d.streaming_state = some ss)
    (hg : ss.got_all_streams = true) :
    ∃ ss', d'.streaming_state = some ss' ∧ ss'.got_all_streams = true := by
  rw [handleVideoTag] at h
  rcases hu : updateVideoStream d dh with _ | ⟨d1, res⟩ <;> rw [hu] at h
  · exact absurd h (by simp)
  dsimp only at h
  obtain ⟨ss1, hss1, hgot1, _⟩ := updateVideoStream_latch d dh d1 res ss hu hss
  have hg1 : ss1.got_all_streams = true := by
    rw [hgot1, hg]
    simp
  cases res
  case Again =>
    dsimp only at h
    by_cases hav : d1.adapter.length < 15 + th.data_size
    · rw [if_pos hav] at h
      simp only [Option.some.injEq, Prod.mk.injEq] at h
      obtain ⟨rfl, rfl⟩ := h
      exact ⟨ss1, hss1, hg1⟩
    rw [if_neg hav] at h
    by_cases h264 : dh.codec_id = .H264
    swap
    · rw [if_neg h264] at h
      obtain ⟨heq, _, _⟩ := handleVideoTagRest_ss d1 th dh 0 d' r h
      exact ⟨ss1, heq ▸ hss1, hg1⟩
    rw [if_pos h264] at h
    by_cases hds5 : th.data_size < 1 + 4
    · rw [if_pos hds5] at h
      rcases hfl : aflush (15 + th.data_size) d1.adapter with _ | a <;> rw [hfl] at h
      · exact absurd h (by simp)
      dsimp only at h
      simp only [Option.some.injEq, Prod.mk.injEq] at h
      obtain ⟨rfl, rfl⟩ := h
      exact ⟨ss1, hss1, hg1⟩
    rw [if_neg hds5] at h
    rcases hpk : apeek 20 d1.adapter with _ | data <;> rw [hpk] at h
    · exact absurd h (by simp)
    dsimp only at h
    rcases hph : p.avc_video_packet_header (data.drop 16) with _ | hdr <;> rw [hph] at h
    · exact absurd h (by simp)
    dsimp only at h
    obtain ⟨pt, cts⟩ := hdr
    cases pt
    · dsimp only at h
      rcases hfl : aflush (15 + 1 + 4) d1.adapter with _ | a <;> rw [hfl] at h
      · exact absurd h (by simp)
      dsimp only at h
      rcases htk : atake (th.data_size - 1 - 4) a with _ | ⟨payload, a2⟩ <;> rw [htk] at h
      · exact absurd h (by simp)
      dsimp only at h
      rw [hss1] at h
      dsimp only at h
      simp only [Option.some.injEq, Prod.mk.injEq] at h
      obtain ⟨rfl, rfl⟩ := h
      exact ⟨_, rfl, hg1⟩
    · dsimp only at h
      obtain ⟨heq, _, _⟩ := handleVideoTagRest_ss d1 th dh cts d' r h
      exact ⟨ss1, heq ▸ hss1, hg1⟩
    · dsimp only at h
      rcases hfl : aflush (15 + th.data_size) d1.adapter with _ | a <;> rw [hfl] at h
      · exact absurd h (by simp)
      dsimp only at h
      simp only [Option.some.injEq, Prod.mk.injEq] at h
      obtain ⟨rfl, rfl⟩ := h
      exact ⟨ss1, hss1, hg1⟩
  all_goals
    dsimp only at h
    simp only [Option.some.injEq, Prod.mk.injEq] at h
    obtain ⟨rfl, rfl⟩ := h
    exact ⟨ss1, hss1, hg1⟩

/-- C8: `got_all_streams` is false at `StreamingState` creation; a reconcile
step sets it exactly when it returns `HaveAllStreams` (the new flag is the old
one OR'd with that event), which requires an unlatched state with the
reconciled side published and the other side published or not expected; and no
`update_state` step from the `Streaming` state ever resets a latched flag, so
`HaveAllStreams` is returned at most once per run. -/
theorem claim_C8_got_all_streams_latch :
    (∀ a v, (StreamingState.new a v).got_all_streams = false) ∧
    (∀ (d : FlvDemux) (dh : AudioDataHeader) (d' : FlvDemux) (r : HandleBufferResult)
       (ss : StreamingState),
      updateAudioStream d dh = some (d', r) → d.streaming_state = some ss →
      ∃ ss', d'.streaming_state = some ss' ∧
        ss'.got_all_streams = (ss.got_all_streams || decide (r = .HaveAllStreams)) ∧
        (r = .HaveAllStreams → ss.got_all_streams = false ∧ ss'.audio.isSome = true ∧
          (ss'.expect_video = true → ss'.video.isSome = true))) ∧
    (∀ (d : FlvDemux) (dh : VideoDataHeader) (d' : FlvDemux) (r : HandleBufferResult)
       (ss : StreamingState),
      updateVideoStream d dh = some (d', r) → d.streaming_state = some ss →
      ∃ ss', d'.streaming_state = some ss' ∧
        ss'.got_all_streams = (ss.got_all_streams || decide (r = .HaveAllStreams)) ∧
        (r = .HaveAllStreams → ss.got_all_streams = false ∧ ss'.video.isSome = true ∧
          (ss'.expect_audio = true → ss'.audio.isSome = true))) ∧
    (∀ (p : Parsers) (d : FlvDemux) (d' : FlvDemux) (r : HandleBufferResult)
       (ss : StreamingState),
      updateState p d = some (d', r) → d.state = .Streaming →
      d.streaming_state = some ss → ss.got_all_streams = true →
      ∃ ss', d'.streaming_state = some ss' ∧ ss'.got_all_streams = true) := by
  refine ⟨fun a v => rfl, updateAudioStream_latch, updateVideoStream_latch, ?_⟩
  intro p d d' r ss h hst hss hg
  rw [updateState, hst] at h
  dsimp only at h
  by_cases h16 : d.adapter.length < 16
  · rw [if_pos h16] at h
    simp only [Option.some.injEq, Prod.mk.injEq] at h
    obtain ⟨rfl, rfl⟩ := h
    exact ⟨ss, hss, hg⟩
  rw [if_neg h16] at h
  rcases hpk : apeek 16 d.adapter with _ | data <;> rw [hpk] at h
  · exact absurd h (by simp)
  dsimp only at h
  rcases hbe : p.be_u32 (data.take 4) with _ | ps <;> rw [hbe] at h
  · exact absurd h (by simp)
  dsimp only at h
  rcases hth : p.tag_header (data.drop 4) with _ | th <;> rw [hth] at h
  · exact absurd h (by simp)
  dsimp only at h
  obtain ⟨tt, tds, tts, tsid⟩ := th
  cases tt
  · dsimp only at h
    rcases hcall : handleScriptTag p d ⟨TagType.Script, tds, tts, tsid⟩ with _ | ⟨d2, r2⟩ <;>
      rw [hcall] at h
    · exact absurd h (by simp)
    obtain ⟨ss2, hss2, hg2⟩ := handleScriptTag_got p d _ d2 r2 ss hcall hss hg
    cases r2 <;> try
      (dsimp only at h
       simp only [Option.some.injEq, Prod.mk.injEq] at h
       obtain ⟨rfl, rfl⟩ := h
       exact ⟨ss2, hss2, hg2⟩)
    dsimp only at h
    rw [hss2] at h
    dsimp only at h
    simp only [Option.some.injEq, Prod.mk.injEq] at h
    obtain ⟨rfl, rfl⟩ := h
    exact ⟨_, rfl, by simpa using hg2⟩
  · dsimp only at h
    rcases hdh : p.audio_data_header (data.drop 15) with _ | dha <;> rw [hdh] at h
    · exact absurd h (by simp)
    dsimp only at h
    rcases hcall : handleAudioTag p d ⟨TagType.Audio, tds, tts, tsid⟩ dha with _ | ⟨d2, r2⟩ <;>
      rw [hcall] at h
    · exact absurd h (by simp)
    obtain ⟨ss2, hss2, hg2⟩ := handleAudioTag_got p d _ dha d2 r2 ss hcall hss hg
    cases r2 <;> try
      (dsimp only at h
       simp only [Option.some.injEq, Prod.mk.injEq] at h
       obtain ⟨rfl, rfl⟩ := h
       exact ⟨ss2, hss2, hg2⟩)
    dsimp only at h
    rw [hss2] at h
    dsimp only at h
    simp only [Option.some.injEq, Prod.mk.injEq] at h
    obtain ⟨rfl, rfl⟩ := h
    exact ⟨_, rfl, by simpa using hg2⟩
  · dsimp only at h
    rcases hdh : p.video_data_header (data.drop 15) with _ | dhv <;> rw [hdh] at h
    · exact absurd h (by simp)
    dsimp only at h
    rcases hcall : handleVideoTag p d ⟨TagType.Video, tds, tts, tsid⟩ dhv with _ | ⟨d2, r2⟩ <;>
      rw [hcall] at h
    · exact absurd h (by simp)
    obtain ⟨ss2, hss2, hg2⟩ := handleVideoTag_got p d _ dhv d2 r2 ss hcall hss hg
    cases r2 <;> try
      (dsimp only at h
       simp only [Option.some.injEq, Prod.mk.injEq] at h
       obtain ⟨rfl, rfl⟩ := h
       exact ⟨ss2, hss2, hg2⟩)
    dsimp only at h
    rw [hss2] at h
    dsimp only at h
    simp only [Option.some.injEq, Prod.mk.injEq] at h
    obtain ⟨rfl, rfl⟩ := h
    exact ⟨_, rfl, by simpa using hg2⟩

/-- Witness for C8: with MP3 published, video not expected and the latch unset,
the audio reconcile step returns `HaveAllStreams` and latches the flag. -/
theorem claim_C8_witness :
    ∃ ss', c8DemuxAfter.streaming_state = some ss' ∧
      ss'.got_all_streams =
        (c8SS.got_all_streams || decide ((.HaveAllStreams : HandleBufferResult) = .HaveAllStreams)) ∧
      ((.HaveAllStreams : HandleBufferResult) = .HaveAllStreams →
        c8SS.got_all_streams = false ∧ ss'.audio.isSome = true ∧
        (ss'.expect_video = true → ss'.video.isSome = true)) :=
  claim_C8_got_all_streams_latch.2.1 c8Demux mp3DataHeader c8DemuxAfter .HaveAllStreams c8SS
    (by decide) rfl

/-- A reconcile step that returns `Again` has reached a fixed point: running it
again from the resulting state returns `Again` with the state unchanged. -/
theorem updateAudioStream_again_idem (d : FlvDemux) (dh : AudioDataHeader) (d' : FlvDemux)
    (h : updateAudioStream d dh = some (d', .Again)) :
    updateAudioStream d' dh = some (d', .Again) := by
  rcases hss : d.streaming_state with _ | ss
  · rw [updateAudioStream, hss] at h
    exact absurd h (by simp)
  rw [updateAudioStream, hss] at h
  dsimp only at h
  split at h
  · rename_i hne
    split at h
    · split at h <;> exact absurd h (by simp)
    · rename_i hcaps
      rw [updateAudioStreamTail] at h
      split at h
      · exact absurd h (by simp)
      · rename_i hcond
        simp only [Option.some.injEq, Prod.mk.injEq, and_true] at h
        obtain rfl := h
        simp [updateAudioStream, updateAudioStreamTail, audioNe, hcaps]
  · rename_i hne
    rw [updateAudioStreamTail] at h
    split at h
    · exact absurd h (by simp)
    · rename_i hcond
      simp only [Option.some.injEq, Prod.mk.injEq, and_true] at h
      obtain rfl := h
      simp only [Bool.not_eq_true] at hne
      have hcond2 : (!ss.got_all_streams && ss.audio.isSome &&
          (ss.expect_video && ss.video.isSome || !ss.expect_video)) = false := by
        revert hcond
        cases hb : (!ss.got_all_streams && ss.audio.isSome &&
          (ss.expect_video && ss.video.isSome || !ss.expect_video)) <;> simp
      simp [updateAudioStream, updateAudioStreamTail, hne, hcond2]

/-- Video analog of `updateAudioStream_again_idem`. -/
theorem updateVideoStream_again_idem (d : FlvDemux) (dh : VideoDataHeader) (d' : FlvDemux)
    (h : updateVideoStream d dh = some (d', .Again)) :
    updateVideoStream d' dh = some (d', .Again) := by
  rcases hss : d.streaming_state with _ | ss
  · rw [updateVideoStream, hss] at h
    exact absurd h (by simp)
  rw [updateVideoStream, hss] at h
  dsimp only at h
  split at h
  · rename_i hne
    split at h
    · split at h <;> exact absurd h (by simp)
    · rename_i hcaps
      rw [updateVideoStreamTail] at h
      split at h
      · exact absurd h (by simp)
      · rename_i hcond
        simp only [Option.some.injEq, Prod.mk.injEq, and_true] at h
        obtain rfl := h
        simp [updateVideoStream, updateVideoStreamTail, videoNe, hcaps]
  · rename_i hne
    rw [updateVideoStreamTail] at h
    split at h
    · exact absurd h (by simp)
    · rename_i hcond
      simp only [Option.some.injEq, Prod.mk.injEq, and_true] at h
      obtain rfl := h
      simp only [Bool.not_eq_true] at hne
      have hcond2 : (!ss.got_all_streams && ss.video.isSome &&
          (ss.expect_audio && ss.audio.isSome || !ss.expect_audio)) = false := by
        revert hcond
        cases hb : (!ss.got_all_streams && ss.video.isSome &&
          (ss.expect_audio && ss.audio.isSome || !ss.expect_audio)) <;> simp
      simp [updateVideoStream, updateVideoStreamTail, hne, hcond2]

/-- `handle_script_tag` returns `NeedMoreData` only from its availability
check, before any mutation. -/
theorem handleScriptTag_nmd (p : Parsers) (d : FlvDemux) (th : TagHeader) (d' : FlvDemux)
    (h : handleScriptTag p d th = some (d', .NeedMoreData)) :
    d' = d ∧ d.adapter.length < 15 + th.data_size := by
  rw [handleScriptTag] at h
  split at h
  · rename_i hav
    simp only [Option.some.injEq, Prod.mk.injEq, and_true] at h
    exact ⟨h.symm, hav⟩
  · dsimp only at h
    repeat' split at h
    all_goals exact absurd h (by simp)

/-- `handle_audio_tag` returns `NeedMoreData` only right after a reconcile that
returned `Again`, from the availability check. -/
theorem handleAudioTag_nmd (p : Parsers) (d : FlvDemux) (th : TagHeader)
    (dh : AudioDataHeader) (d' : FlvDemux)
    (h : handleAudioTag p d th dh = some (d', .NeedMoreData)) :
    updateAudioStream d dh = some (d', .Again) ∧ d'.adapter.length < 15 + th.data_size := by
  rw [handleAudioTag] at h
  rcases hu : updateAudioStream d dh with _ | ⟨d1, res⟩ <;> rw [hu] at h
  · exact absurd h (by simp)
  dsimp only at h
  obtain ⟨-, hnmd, -, -⟩ := updateAudioStream_shape d dh d1 res hu
  cases res
  case NeedMoreData => exact absurd rfl hnmd
  case StreamAdded => exact absurd h (by simp)
  case StreamChanged => exact absurd h (by simp)
  case StreamsChanged => exact absurd h (by simp)
  case HaveAllStreams => exact absurd h (by simp)
  case BufferForStream => exact absurd h (by simp)
  case Again =>
    dsimp only at h
    by_cases hav : d1.adapter.length < 15 + th.data_size
    · rw [if_pos hav] at h
      simp only [Option.some.injEq, Prod.mk.injEq, and_true] at h
      obtain rfl := h
      exact ⟨rfl, hav⟩
    rw [if_neg hav] at h
    by_cases haac : dh.sound_format = .AAC
    swap
    · rw [if_neg haac] at h
      obtain ⟨-, -, hne⟩ := handleAudioTagRest_ss d1 th d' .NeedMoreData h
      exact absurd rfl hne
    rw [if_pos haac] at h
    by_cases hds2 : th.data_size < 1 + 1
    · rw [if_pos hds2] at h
      split at h <;> exact absurd h (by simp)
    rw [if_neg hds2] at h
    rcases hpk : apeek 17 d1.adapter with _ | data <;> rw [hpk] at h
    · exact absurd h (by simp)
    dsimp only at h
    rcases hph : p.aac_audio_packet_header (data.drop 16) with _ | hdr <;> rw [hph] at h
    · exact absurd h (by simp)
    dsimp only at h
    obtain ⟨pt⟩ := hdr
    cases pt
    · dsimp only at h
      repeat' split at h
      all_goals exact absurd h (by simp)
    · dsimp only at h
      obtain ⟨-, -, hne⟩ := handleAudioTagRest_ss d1 th d' .NeedMoreData h
      exact absurd rfl hne

/-- `handle_video_tag` returns `NeedMoreData` only right after a reconcile that
returned `Again`, from the availability check. -/
theorem handleVideoTag_nmd (p : Parsers) (d : FlvDemux) (th : TagHeader)
    (dh : VideoDataHeader) (d' : FlvDemux)
    (h : handleVideoTag p d th dh = some (d', .NeedMoreData)) :
    updateVideoStream d dh = some (d', .Again) ∧ d'.adapter.length < 15 + th.data_size := by
  rw [handleVideoTag] at h
  rcases hu : updateVideoStream d dh with _ | ⟨d1, res⟩ <;> rw [hu] at h
  · exact absurd h (by simp)
  dsimp only at h
  obtain ⟨-, hnmd, -, -⟩ := updateVideoStream_shape d dh d1 res hu
  cases res
  case NeedMoreData => exact absurd rfl hnmd
  case StreamAdded => exact absurd h (by simp)
  case StreamChanged => exact absurd h (by simp)
  case StreamsChanged => exact absurd h (by simp)
  case HaveAllStreams => exact absurd h (by simp)
  case BufferForStream => exact absurd h (by simp)
  case Again =>
    dsimp only at h
    by_cases hav : d1.adapter.length < 15 + th.data_size
    · rw [if_pos hav] at h
      simp only [Option.some.injEq, Prod.mk.injEq, and_true] at h
      obtain rfl := h
      exact ⟨rfl, hav⟩
    rw [if_neg hav] at h
    by_cases h264 : dh.codec_id = .H264
    swap
    · rw [if_neg h264] at h
      obtain ⟨-, -, hne⟩ := handleVideoTagRest_ss d1 th dh 0 d' .NeedMoreData h
      exact absurd rfl hne
    rw [if_pos h264] at h
    by_cases hds5 : th.data_size < 1 + 4
    · rw [if_pos hds5] at h
      split at h <;> exact absurd h (by simp)
    rw [if_neg hds5] at h
    rcases hpk : apeek 20 d1.adapter with _ | data <;> rw [hpk] at h
    · exact absurd h (by simp)
    dsimp only at h
    rcases hph : p.avc_video_packet_header (data.drop 16) with _ | hdr <;> rw [hph] at h
    · exact absurd h (by simp)
    dsimp only at h
    obtain ⟨pt, cts⟩ := hdr
    cases pt
    · dsimp only at h
      repeat' split at h
      all_goals exact absurd h (by simp)
    · dsimp only at h
      obtain ⟨-, -, hne⟩ := handleVideoTagRest_ss d1 th dh cts d' .NeedMoreData h
      exact absurd rfl hne
    · dsimp only at h
      split at h <;> exact absurd h (by simp)

/-- `update_state` returning `NeedMoreData` leaves the demuxer at a fixed
point: calling it again returns `NeedMoreData` with nothing changed. -/
theorem updateState_nmd_idem (p : Parsers) (d : FlvDemux) (d' : FlvDemux)
    (h : updateState p d = some (d', .NeedMoreData)) :
    updateState p d' = some (d', .NeedMoreData) := by
  obtain ⟨st, ad, sst⟩ := d
  cases st
  case Stopped =>
    rw [updateState] at h
    exact absurd h (by simp)
  case NeedHeader =>
    rw [updateState] at h
    dsimp only at h
    rcases hloop : needHeaderLoop p ad with ⟨a2, ho⟩
    rw [hloop] at h
    cases ho
    case some hdr => exact absurd h (by simp)
    case none =>
      dsimp only at h
      simp only [Option.some.injEq, Prod.mk.injEq, and_true] at h
      obtain rfl := h
      have h2 : (needHeaderLoop p ad).2 = none := by rw [hloop]
      have h9 := needHeaderLoop_none_short p ad.length ad le_rfl h2
      rw [hloop] at h9
      rw [updateState]
      dsimp only
      rw [needHeaderLoop_of_lt p a2 (by simpa using h9)]
  case Skipping audio video n =>
    cases n
    · rw [updateState] at h
      exact absurd h (by simp)
    · rw [updateState] at h
      dsimp only at h
      split at h <;> exact absurd h (by simp)
  case Streaming =>
    rw [updateState] at h
    dsimp only at h
    by_cases h16 : ad.length < 16
    · rw [if_pos h16] at h
      simp only [Option.some.injEq, Prod.mk.injEq, and_true] at h
      obtain rfl := h
      rw [updateState]
      dsimp only
      rw [if_pos h16]
    rw [if_neg h16] at h
    rcases hpk : apeek 16 ad with _ | data <;> rw [hpk] at h
    · exact absurd h (by simp)
    dsimp only at h
    rcases hbe : p.be_u32 (data.take 4) with _ | ps <;> rw [hbe] at h
    · exact absurd h (by simp)
    dsimp only at h
    rcases hth : p.tag_header (data.drop 4) with _ | th <;> rw [hth] at h
    · exact absurd h (by simp)
    dsimp only at h
    obtain ⟨tt, tds, tts, tsid⟩ := th
    cases tt
    · -- Script tag
      dsimp only at h
      rcases hcall : handleScriptTag p ⟨State.Streaming, ad, sst⟩ ⟨TagType.Script, tds, tts, tsid⟩
        with _ | ⟨d2, r2⟩ <;> rw [hcall] at h
      · exact absurd h (by simp)
      cases r2
      · dsimp only at h
        simp only [Option.some.injEq, Prod.mk.injEq, and_true] at h
        obtain rfl := h
        obtain ⟨rfl, hav⟩ := handleScriptTag_nmd p _ _ _ hcall
        rw [updateState]
        dsimp only
        rw [if_neg h16, hpk]
        dsimp only
        rw [hbe]
        dsimp only
        rw [hth]
        dsimp only
        rw [hcall]
      · dsimp only at h
        exact absurd h (by simp)
      · dsimp only at h
        exact absurd h (by simp)
      · dsimp only at h
        exact absurd h (by simp)
      · dsimp only at h
        exact absurd h (by simp)
      · dsimp only at h
        exact absurd h (by simp)
      · dsimp only at h
        rcases hss2 : d2.streaming_state with _ | ss2 <;> rw [hss2] at h
        · exact absurd h (by simp)
        dsimp only at h
        exact absurd h (by simp)
    · -- Audio tag
      dsimp only at h
      rcases hdh : p.audio_data_header (data.drop 15) with _ | dha <;> rw [hdh] at h
      · exact absurd h (by simp)
      dsimp only at h
      rcases hcall : handleAudioTag p ⟨State.Streaming, ad, sst⟩ ⟨TagType.Audio, tds, tts, tsid⟩ dha
        with _ | ⟨d2, r2⟩ <;> rw [hcall] at h
      · exact absurd h (by simp)
      cases r2
      · dsimp only at h
        simp only [Option.some.injEq, Prod.mk.injEq, and_true] at h
        obtain rfl := h
        obtain ⟨hupd, hav⟩ := handleAudioTag_nmd p _ _ dha _ hcall
        obtain ⟨-, -, hadp2, hst2⟩ := updateAudioStream_shape _ dha _ _ hupd
        have hidem := updateAudioStream_again_idem _ dha _ hupd
        have hcall2 : handleAudioTag p d2 ⟨TagType.Audio, tds, tts, tsid⟩ dha =
            some (d2, .NeedMoreData) := by
          rw [handleAudioTag, hidem]
          dsimp only
          rw [if_pos hav]
        rw [updateState, hst2]
        dsimp only
        rw [hadp2]
        dsimp only
        rw [if_neg h16, hpk]
        dsimp only
        rw [hbe]
        dsimp only
        rw [hth]
        dsimp only
        rw [hdh]
        dsimp only
        rw [hcall2]
      · dsimp only at h
        exact absurd h (by simp)
      · dsimp only at h
        exact absurd h (by simp)
      · dsimp only at h
        exact absurd h (by simp)
      · dsimp only at h
        exact absurd h (by simp)
      · dsimp only at h
        exact absurd h (by simp)
      · dsimp only at h
        rcases hss2 : d2.streaming_state with _ | ss2 <;> rw [hss2] at h
        · exact absurd h (by simp)
        dsimp only at h
        exact absurd h (by simp)
    · -- Video tag
      dsimp only at h
      rcases hdh : p.video_data_header (data.drop 15) with _ | dhv <;> rw [hdh] at h
      · exact absurd h (by simp)
      dsimp only at h
      rcases hcall : handleVideoTag p ⟨State.Streaming, ad, sst⟩ ⟨TagType.Video, tds, tts, tsid⟩ dhv
        with _ | ⟨d2, r2⟩ <;> rw [hcall] at h
      · exact absurd h (by simp)
      cases r2
      · dsimp only at h
        simp only [Option.some.injEq, Prod.mk.injEq, and_true] at h
        obtain rfl := h
        obtain ⟨hupd, hav⟩ := handleVideoTag_nmd p _ _ dhv _ hcall
        obtain ⟨-, -, hadp2, hst2⟩ := updateVideoStream_shape _ dhv _ _ hupd
        have hidem := updateVideoStream_again_idem _ dhv _ hupd
        have hcall2 : handleVideoTag p d2 ⟨TagType.Video, tds, tts, tsid⟩ dhv =
            some (d2, .NeedMoreData) := by
          rw [handleVideoTag, hidem]
          dsimp only
          rw [if_pos hav]
        rw [updateState, hst2]
        dsimp only
        rw [hadp2]
        dsimp only
        rw [if_neg h16, hpk]
        dsimp only
        rw [hbe]
        dsimp only
        rw [hth]
        dsimp only
        rw [hdh]
        dsimp only
        rw [hcall2]
      · dsimp only at h
        exact absurd h (by simp)
      · dsimp only at h
        exact absurd h (by simp)
      · dsimp only at h
        exact absurd h (by simp)
      · dsimp only at h
        exact absurd h (by simp)
      · dsimp only at h
        exact absurd h (by simp)
      · dsimp only at h
        rcases hss2 : d2.streaming_state with _ | ss2 <;> rw [hss2] at h
        · exact absurd h (by simp)
        dsimp only at h
        exact absurd h (by simp)

/-- C9: whenever `handle_buffer` returns `NeedMoreData`, calling it again with
no buffer pushed returns `NeedMoreData` again and leaves the demuxer state,
streaming state and adapter content unchanged. -/
theorem claim_C9_nmd_idempotent (p : Parsers) (d : FlvDemux) (b : Option Buffer)
    (d' : FlvDemux)
    (h : handleBuffer p d b = some (d', .NeedMoreData)) :
    handleBuffer p d' none = some (d', .NeedMoreData) := by
  rw [handleBuffer.eq_def] at h ⊢
  dsimp only at h ⊢
  exact updateState_nmd_idem p _ d' h

/-- Witness for C9: a `NeedHeader` demuxer with 3 buffered bytes answers
`NeedMoreData` and polling again with no data reproduces it unchanged. -/
theorem claim_C9_witness :
    handleBuffer specParsers c9Demux none = some (c9Demux, .NeedMoreData) := by
  have h0 : handleBuffer specParsers c9Demux none = some (c9Demux, .NeedMoreData) := by
    simp only [handleBuffer.eq_def, updateState, c9Demux,
      needHeaderLoop_of_lt specParsers [1, 2, 3] (by decide)]
  exact claim_C9_nmd_idempotent specParsers c9Demux none c9Demux h0
